import Mathlib

/-!
# gpkg `es` package: index-existence cache, bulk configuration clamping, document
operations, query and scroll

A shallow embedding of `src/es/index_operation.go`, `src/es/client.go`,
`src/es/doc_operation.go` and `src/es/query.go`.

* The wrapped `elastic.Client` is an external collaborator.  It is embedded as an
  arbitrary state machine `Engine σ`: every request builder that ends in `.Do(ctx)`
  is one transition of the engine state that returns the typed response or error.
* A Go `error` is `Option Err` (`none` is `nil`).
* `sync.Map` restricted to the way the package uses it (string keys) is `Cache`.
* Every request sent to the engine and every line printed through `EStdLogger`
  is appended to an observation trace carried next to the Go fields.
-/

set_option linter.dupNamespace false

namespace Es

/-! ## Errors, log lines, engine requests -/

/-- Go error values: `io.EOF` is compared by identity, all other errors are opaque. -/
inductive Err where
  | EOF
  | other (msg : String)
deriving DecidableEq, Repr

/-- Lines printed through `EStdLogger`, one constructor per print site. -/
inductive LogLine where
  | requestSizeClamped
  | actionSizeClamped
  | flushIntervalClamped
  | initBulkProcessorError (err : Err)
  | dsl (data rs : String)
  | slowQuery (data rs : String)
  | nilResults
  | hitsNil
deriving DecidableEq, Repr

/-! ## `sync.Map` as used for `CacheIndices` -/

/-- Contents of `Client.CacheIndices`: index name to the stored flag. -/
abbrev Cache := List (String × Bool)

/-- Go `sync.Map.Load`: the stored value, `none` when `ok` is false. -/
def Cache.Load (m : Cache) (key : String) : Option Bool :=
  match m with
  | [] => none
  | (k, v) :: rest => if k = key then some v else Cache.Load rest key

/-- Go `sync.Map.Delete`. -/
def Cache.Delete (m : Cache) (key : String) : Cache :=
  m.filter (fun kv => decide (kv.1 ≠ key))

/-- Go `sync.Map.Store`: replaces any earlier entry of the key. -/
def Cache.Store (m : Cache) (key : String) (value : Bool) : Cache :=
  (key, value) :: Cache.Delete m key

/-! ## Search results -/

/-- One hit of `elastic.SearchHit` (the fields the package can observe). -/
structure SearchHit where
  Index : String
  Id : String
  Source : String
deriving DecidableEq, Repr

/-- The hit container `elastic.SearchHits`. -/
structure SearchHits where
  Hits : List SearchHit
deriving DecidableEq, Repr

/-- The result `elastic.SearchResult`; `Hits` is a pointer and may be nil. -/
structure SearchResult where
  TookInMillis : Int
  Hits : Option SearchHits
deriving DecidableEq, Repr

/-- What one `Do(ctx)` of a search or scroll service returns: `(res, err)`. -/
abbrev Response := Option SearchResult × Option Err

/-! ## Requests built by `Query` and `ScrollQuery` -/

/-- The body `elastic.SearchSource` as configured by the package. -/
structure SearchSource where
  fetchSource : Bool
  includes : List String
  excludes : List String
  query : String
  pageFrom : Option Int
  size : Option Int
  sorts : List (String × Bool)
  highlight : Option String
  profile : Bool
deriving DecidableEq, Repr

/-- The configured `elastic.SearchService`. -/
structure SearchRequest where
  index : String
  source : SearchSource
  ignoreUnavailable : Bool
  preference : String
  routing : Option (List String)
deriving DecidableEq, Repr

/-- The configured `elastic.ScrollService`. -/
structure ScrollRequest where
  index : List String
  source : SearchSource
  size : Int
  preference : String
  routing : Option (List String)
deriving DecidableEq, Repr

/-! ## `Bulk` -/

/-- Go `time.Second` in nanoseconds, the unit of `time.Duration`. -/
def Second : Int := 1000000000

/-- The callback stored in `Bulk.AfterFunc`. -/
inductive AfterFunc where
  | defaultBulkFunc
  | custom (id : Nat)
deriving DecidableEq, Repr

/-- Go `Bulk`; `FlushInterval` is a `time.Duration`, a count of nanoseconds. -/
structure Bulk where
  Name : String
  Workers : Int
  FlushInterval : Int
  ActionSize : Int
  RequestSize : Int
  AfterFunc : Option AfterFunc
  Ctx : Option Unit
deriving DecidableEq, Repr

/-- The started `elastic.BulkProcessor` with the configuration it was built from. -/
structure BulkProcessor where
  Name : String
  Workers : Int
  BulkActions : Int
  BulkSize : Int
  FlushInterval : Int
  Stats : Bool
  After : Option AfterFunc
deriving DecidableEq, Repr

/-! ## Requests built by the document operations

Each field of a request records the argument of the setter of that name of the
elastic service; it is `none` (or `false`) when the setter was never called. -/

/-- A document body, Go `interface{}`, as its JSON text. -/
abbrev Doc := String

/-- A partial update, Go `map[string]interface{}`, as its entries. -/
abbrev UpdateMap := List (String × String)

/-- The configured `elastic.IndexService`. -/
structure IndexRequest where
  index : Option String
  opType : Option String
  id : Option String
  routing : Option String
  bodyJson : Option Doc
  refresh : Option String
  version : Option Int
  versionType : Option String
deriving DecidableEq, Repr

/-- The configured `elastic.DeleteService`. -/
structure DeleteRequest where
  index : Option String
  id : Option String
  routing : Option String
  refresh : Option String
  version : Option Int
  versionType : Option String
deriving DecidableEq, Repr

/-- The configured `elastic.DeleteByQueryService`. -/
structure DeleteByQueryRequest where
  index : String
  query : String
  proceedOnVersionConflict : Bool
  refresh : Option String
  routing : Option String
deriving DecidableEq, Repr

/-- The configured `elastic.UpdateService`. -/
structure UpdateRequest where
  index : Option String
  id : Option String
  routing : Option String
  refresh : Option String
  doc : Option UpdateMap
  docAsUpsert : Option Bool
  upsert : Option Doc
deriving DecidableEq, Repr

/-- The configured `elastic.UpdateByQueryService`, the script given by its source,
parameters and language. -/
structure UpdateByQueryRequest where
  index : String
  query : String
  script : String
  scriptParams : UpdateMap
  scriptLang : String
  refresh : Option String
  proceedOnVersionConflict : Bool
  routing : Option (List String)
deriving DecidableEq, Repr

/-- The configured `elastic.GetService`. -/
structure GetRequest where
  index : Option String
  id : Option String
  preference : Option String
  routing : Option String
deriving DecidableEq, Repr

/-- Which constructor built a bulk item: `NewBulkCreateRequest`, `NewBulkIndexRequest`,
`NewBulkDeleteRequest` or `NewBulkUpdateRequest`. -/
inductive BulkOp where
  | create
  | index
  | delete
  | update
deriving DecidableEq, Repr

/-- One item `elastic.BulkableRequest`.  `doc` is the body given to `Doc` of a create
or index item, `updateDoc` the map given to `Doc` of an update item. -/
structure BulkableRequest where
  op : BulkOp
  index : Option String
  id : Option String
  routing : Option String
  doc : Option Doc
  updateDoc : Option UpdateMap
  upsert : Option Doc
  docAsUpsert : Option Bool
  version : Option Int
  versionType : Option String
deriving DecidableEq, Repr

/-- The configured `elastic.BulkService` with the items added to it, in order. -/
structure BulkRequest where
  errorTrace : Bool
  refresh : Option String
  requests : List BulkableRequest
deriving DecidableEq, Repr

/-- The response `elastic.BulkResponse` (the fields the package can observe). -/
structure BulkResponse where
  Took : Int
  Errors : Bool
deriving DecidableEq, Repr

/-- The response `elastic.BulkIndexByScrollResponse`. -/
structure BulkIndexByScrollResponse where
  Updated : Int
deriving DecidableEq, Repr

/-- The response `elastic.GetResult`. -/
structure GetResult where
  Id : String
  Found : Bool
  Source : String
deriving DecidableEq, Repr

/-- Requests that reach the engine, in the order they are sent. -/
inductive Call where
  | indexExists (indexName : String)
  | createIndex (indexName bodyJson : String)
  | search (req : SearchRequest)
  | scrollDo (req : ScrollRequest)
  | scrollClear (req : ScrollRequest)
  | bulkProcessorDo (cfg : BulkProcessor)
  | index (req : IndexRequest)
  | delete (req : DeleteRequest)
  | deleteByQuery (req : DeleteByQueryRequest)
  | update (req : UpdateRequest)
  | updateByQuery (req : UpdateByQueryRequest)
  | get (req : GetRequest)
  | bulk (req : BulkRequest)
  | bulkProcessorAdd (req : BulkableRequest)
deriving DecidableEq, Repr

/-- The wrapped engine client: each field is one `...Do(ctx)` of the elastic library,
a transition of the engine state `σ` together with the typed response.  `marshal` is
`json.Marshal` of `searchSource.Source()` and `bulkProcessorAdd` is
`BulkProcessor.Add`, which hands an item to the background pipeline. -/
structure Engine (σ : Type) where
  bulkProcessorDo : σ → BulkProcessor → Option Err × σ
  indexExists : σ → String → (Bool × Option Err) × σ
  createIndex : σ → String → String → Option Err × σ
  search : σ → SearchRequest → Response × σ
  scrollDo : σ → ScrollRequest → Response × σ
  scrollClear : σ → ScrollRequest → σ
  marshal : SearchSource → String
  index : σ → IndexRequest → Option Err × σ
  delete : σ → DeleteRequest → Option Err × σ
  deleteByQuery : σ → DeleteByQueryRequest → Option Err × σ
  update : σ → UpdateRequest → Option Err × σ
  updateByQuery : σ → UpdateByQueryRequest → (Option BulkIndexByScrollResponse × Option Err) × σ
  get : σ → GetRequest → (Option GetResult × Option Err) × σ
  bulk : σ → BulkRequest → (Option BulkResponse × Option Err) × σ
  bulkProcessorAdd : σ → BulkableRequest → σ

/-! ## `Client` -/

/-- Go `Client`.  The field `Client` is the wrapped engine handle, embedded as the
engine state it gives access to.  `calls` and `logs` are the observation traces:
the requests sent to the engine and the lines printed through `EStdLogger`. -/
structure Client (σ : Type) where
  Name : String
  Urls : List String
  QueryLogEnable : Bool
  Username : String
  password : String
  Bulk : Bulk
  Client : σ
  BulkProcessor : Option BulkProcessor
  DebugMode : Bool
  CacheIndices : Cache
  calls : List Call
  logs : List LogLine

/-- Number of underlying create-index requests in a trace. -/
def createCalls (cs : List Call) : Nat :=
  (cs.filter (fun c => match c with | Call.createIndex _ _ => true | _ => false)).length

/-- Number of live existence checks in a trace. -/
def existsCalls (cs : List Call) : Nat :=
  (cs.filter (fun c => match c with | Call.indexExists _ => true | _ => false)).length

/-! ## `index_operation.go` -/

/-- Go `(*Client).IndexExists`. -/
def IndexExists {σ : Type} (E : Engine σ) (c : Client σ) (indexName : String)
    (forceCheck : Bool) : (Bool × Option Err) × Client σ :=
  if forceCheck = false ∧ (c.CacheIndices.Load indexName).isNone then
    ((true, none), c)
  else
    let r := E.indexExists c.Client indexName
    let c1 : Client σ :=
      { c with Client := r.2, calls := c.calls ++ [Call.indexExists indexName] }
    let c2 : Client σ :=
      if r.1.1 then { c1 with CacheIndices := c1.CacheIndices.Store indexName true } else c1
    ((r.1.1, r.1.2), c2)

/-- Go `(*Client).CreateIndex`.  The mutex `c.lock` is held from entry to return, so
the call is one atomic transition of the client. -/
def CreateIndex {σ : Type} (E : Engine σ) (c : Client σ) (indexName bodyJson : String)
    (forceCheck : Bool) : Option Err × Client σ :=
  let r := IndexExists E c indexName forceCheck
  let c1 := r.2
  if r.1.2 ≠ none then
    (none, c1)
  else if r.1.1 then
    (none, c1)
  else
    let k := E.createIndex c1.Client indexName bodyJson
    let c2 : Client σ :=
      { c1 with Client := k.2, calls := c1.calls ++ [Call.createIndex indexName bodyJson] }
    let c3 : Client σ :=
      if k.1 ≠ none then { c2 with CacheIndices := c2.CacheIndices.Store indexName true } else c2
    (k.1, c3)

/-- Go `(*Client).AddIndexCache`. -/
def AddIndexCache {σ : Type} (c : Client σ) (indexName : List String) : Client σ :=
  indexName.foldl (fun acc index => { acc with CacheIndices := acc.CacheIndices.Store index true }) c

/-- Go `(*Client).DeleteIndexCache`. -/
def DeleteIndexCache {σ : Type} (c : Client σ) (indexName : List String) : Client σ :=
  indexName.foldl (fun acc index => { acc with CacheIndices := acc.CacheIndices.Delete index }) c

/-! ## `client.go` -/

/-- Go `DefaultBulk`; the name is left empty and the interval is the untyped constant
`1`, one nanosecond. -/
def DefaultBulk : Bulk :=
  { Name := ""
    Workers := 3
    FlushInterval := 1
    ActionSize := 500
    RequestSize := 5 * 2 ^ 20
    AfterFunc := some AfterFunc.defaultBulkFunc
    Ctx := some () }

/-- The statement `if c.Bulk.Name == "" { c.Bulk.Name = c.Name }` of `newClient`. -/
def newClient.defaultName {σ : Type} (c : Client σ) : Client σ :=
  if c.Bulk.Name = "" then { c with Bulk := { c.Bulk with Name := c.Name } } else c

/-- The statement `if c.Bulk.Workers <= 0 { c.Bulk.Workers = 1 }` of `newClient`. -/
def newClient.clampWorkers {σ : Type} (c : Client σ) : Client σ :=
  if c.Bulk.Workers ≤ 0 then { c with Bulk := { c.Bulk with Workers := 1 } } else c

/-- The statement `if c.Bulk.RequestSize > 100*1024*1024 { ... }` of `newClient`. -/
def newClient.clampRequestSize {σ : Type} (c : Client σ) : Client σ :=
  if c.Bulk.RequestSize > 100 * 1024 * 1024 then
    { c with
        logs := c.logs ++ [LogLine.requestSizeClamped]
        Bulk := { c.Bulk with RequestSize := 100 * 1024 * 1024 } }
  else c

/-- The statement `if c.Bulk.ActionSize >= 10000 { ... }` of `newClient`. -/
def newClient.clampActionSize {σ : Type} (c : Client σ) : Client σ :=
  if c.Bulk.ActionSize ≥ 10000 then
    { c with
        logs := c.logs ++ [LogLine.actionSizeClamped]
        Bulk := { c.Bulk with ActionSize := 10000 } }
  else c

/-- The statement `if c.Bulk.FlushInterval >= 60 { ... = time.Second * 60 }` of
`newClient`: the duration is compared with the untyped constant `60`, that is with
60 nanoseconds. -/
def newClient.clampFlushInterval {σ : Type} (c : Client σ) : Client σ :=
  if c.Bulk.FlushInterval ≥ 60 then
    { c with
        logs := c.logs ++ [LogLine.flushIntervalClamped]
        Bulk := { c.Bulk with FlushInterval := Second * 60 } }
  else c

/-- The statement `if c.Bulk.AfterFunc == nil { c.Bulk.AfterFunc = defaultBulkFunc }`. -/
def newClient.defaultAfterFunc {σ : Type} (c : Client σ) : Client σ :=
  if c.Bulk.AfterFunc = none then
    { c with Bulk := { c.Bulk with AfterFunc := some AfterFunc.defaultBulkFunc } }
  else c

/-- The statement `if c.Bulk.Ctx == nil { c.Bulk.Ctx = context.Background() }`. -/
def newClient.defaultCtx {σ : Type} (c : Client σ) : Client σ :=
  if c.Bulk.Ctx = none then { c with Bulk := { c.Bulk with Ctx := some () } } else c

/-- The last statements of `newClient`: build and start the bulk processor from
`c.Bulk`, store it, and print the error if starting failed. -/
def newClient.startBulkProcessor {σ : Type} (E : Engine σ) (c : Client σ) : Client σ :=
  let cfg : BulkProcessor :=
    { Name := c.Bulk.Name
      Workers := c.Bulk.Workers
      BulkActions := c.Bulk.ActionSize
      BulkSize := c.Bulk.RequestSize
      FlushInterval := c.Bulk.FlushInterval
      Stats := true
      After := c.Bulk.AfterFunc }
  let r := E.bulkProcessorDo c.Client cfg
  let c : Client σ :=
    { c with
        Client := r.2
        calls := c.calls ++ [Call.bulkProcessorDo cfg]
        BulkProcessor := if r.1 = none then some cfg else none }
  match r.1 with
  | some err => { c with logs := c.logs ++ [LogLine.initBulkProcessorError err] }
  | none => c

/-- Go `(*Client).newClient`, its statements in source order.  `dial` is what
`elastic.NewClient(options...)` returned: the error, or the engine handle. -/
def newClient {σ : Type} (E : Engine σ) (c : Client σ) (dial : Except Err σ) :
    Option Err × Client σ :=
  match dial with
  | Except.error err => (some err, c)
  | Except.ok client =>
    let c : Client σ := { c with Client := client }
    let c := newClient.defaultName c
    let c := newClient.clampWorkers c
    let c := newClient.clampRequestSize c
    let c := newClient.clampActionSize c
    let c := newClient.clampFlushInterval c
    let c := newClient.defaultAfterFunc c
    let c := newClient.defaultCtx c
    let c := newClient.startBulkProcessor E c
    (none, c)

/-! ## `query.go` -/

/-- Go `queryOption`.  An element of `Orders` is a Go map, given as its entries in the
order the `range` loop visits them. -/
structure queryOption where
  Orders : List (List (String × Bool))
  Highlight : Option String
  Profile : Bool
  EnableDSL : Bool
  ExcludeFields : List String
  IncludeFields : List String
  SlowQueryMillisecond : Int
  Preference : String
  FetchSource : Option Bool
deriving DecidableEq, Repr

/-- Go `QueryOption`. -/
abbrev QueryOption := queryOption → queryOption

/-- Go `DefaultPreference`. -/
def DefaultPreference : String := "_local"

/-- Go `WithOrders`. -/
def WithOrders (orders : List (List (String × Bool))) : QueryOption :=
  fun opt => { opt with Orders := orders }

/-- Go `WithHighlight`. -/
def WithHighlight (highlight : Option String) : QueryOption :=
  fun opt => { opt with Highlight := highlight }

/-- Go `WithProfile`. -/
def WithProfile (profile : Bool) : QueryOption :=
  fun opt => { opt with Profile := profile }

/-- Go `WithIncludeFields`. -/
def WithIncludeFields (includeFields : List String) : QueryOption :=
  fun opt => { opt with IncludeFields := includeFields }

/-- Go `WithExcludeFields`. -/
def WithExcludeFields (excludeFields : List String) : QueryOption :=
  fun opt => { opt with ExcludeFields := excludeFields }

/-- Go `WithEnableDSL`. -/
def WithEnableDSL (enableDSL : Bool) : QueryOption :=
  fun opt => { opt with EnableDSL := enableDSL }

/-- Go `WithSlowQueryMillisecond`. -/
def WithSlowQueryMillisecond (slowQueryLogMillisecond : Int) : QueryOption :=
  fun opt => { opt with SlowQueryMillisecond := slowQueryLogMillisecond }

/-- Go `WithPreference`. -/
def WithPreference (preference : String) : QueryOption :=
  fun opt => { opt with Preference := preference }

/-- Go `WithFetchSource`. -/
def WithFetchSource (fetchSource : Bool) : QueryOption :=
  fun opt => { opt with FetchSource := some fetchSource }

/-- The zero value `&queryOption{}`. -/
def queryOption.zero : queryOption :=
  { Orders := []
    Highlight := none
    Profile := false
    EnableDSL := false
    ExcludeFields := []
    IncludeFields := []
    SlowQueryMillisecond := 0
    Preference := ""
    FetchSource := none }

/-- The loop `for _, f := range options` that opens `Query` and `ScrollQuery`; a nil
option is skipped. -/
def applyOptions (options : List (Option QueryOption)) : queryOption :=
  options.foldl (fun opt f => match f with | some g => g opt | none => opt) queryOption.zero

/-- The nested `range` loops over `queryOpt.Orders` calling `searchSource.Sort`. -/
def applyOrders (src : SearchSource) (orders : List (List (String × Bool))) : SearchSource :=
  orders.foldl
    (fun s orderM => orderM.foldl (fun s fo => { s with sorts := s.sorts ++ [fo] }) s) src

/-- The Go condition of the slow-query print in `Query` (line 144) and in `ScrollQuery`
(line 199), evaluated left to right:
`SlowQueryMillisecond > 0 && res != nil && res.TookInMillis >= SlowQueryMillisecond`. -/
def slowCondition (slowQueryMillisecond : Int) (res : Option SearchResult) : Bool :=
  decide (slowQueryMillisecond > 0) &&
    (match res with
     | none => false
     | some r => decide (r.TookInMillis ≥ slowQueryMillisecond))

/-- The `searchSource` that `Query` builds from its arguments and the resolved options
(lines 99 to 124 of `query.go`). -/
def Query.searchSource (query : String) (pageFrom size : Int) (queryOpt : queryOption) :
    SearchSource :=
  let fetchSource : Bool := if queryOpt.FetchSource = some false then false else true
  let includes := if queryOpt.IncludeFields.length > 0 then queryOpt.IncludeFields else []
  let excludes := if queryOpt.ExcludeFields.length > 0 then queryOpt.ExcludeFields else []
  let searchSource : SearchSource :=
    { fetchSource := fetchSource
      includes := includes
      excludes := excludes
      query := query
      pageFrom := some pageFrom
      size := some size
      sorts := []
      highlight := none
      profile := false }
  let searchSource :=
    if queryOpt.Orders.length > 0 then applyOrders searchSource queryOpt.Orders
    else searchSource
  let searchSource :=
    match queryOpt.Highlight with
    | some h => { searchSource with highlight := some h }
    | none => searchSource
  { searchSource with profile := queryOpt.Profile }

/-- The `searchService` that `Query` builds (lines 126 to 134 of `query.go`). -/
def Query.searchService (indexName : String) (routes : List String) (query : String)
    (pageFrom size : Int) (queryOpt : queryOption) : SearchRequest :=
  let searchService : SearchRequest :=
    { index := indexName
      source := Query.searchSource query pageFrom size queryOpt
      ignoreUnavailable := true
      preference := DefaultPreference
      routing := none }
  let searchService :=
    if routes.length > 0 then { searchService with routing := some routes } else searchService
  if queryOpt.Preference.length > 0 then
    { searchService with preference := queryOpt.Preference }
  else { searchService with preference := DefaultPreference }

/-- Go `(*Client).Query`. -/
def Query {σ : Type} (E : Engine σ) (c : Client σ) (indexName : String)
    (routes : List String) (query : String) (pageFrom size : Int)
    (options : List (Option QueryOption)) : Response × Client σ :=
  let queryOpt := applyOptions options
  let searchSource := Query.searchSource query pageFrom size queryOpt
  let searchService := Query.searchService indexName routes query pageFrom size queryOpt
  let r := E.search c.Client searchService
  let c1 : Client σ :=
    { c with Client := r.2, calls := c.calls ++ [Call.search searchService] }
  let data := E.marshal searchSource
  let rs := String.intercalate "," routes
  let c2 : Client σ :=
    if c1.DebugMode ∨ c1.QueryLogEnable ∨ queryOpt.EnableDSL then
      { c1 with logs := c1.logs ++ [LogLine.dsl data rs] }
    else c1
  let c3 : Client σ :=
    if slowCondition queryOpt.SlowQueryMillisecond r.1.1 then
      { c2 with logs := c2.logs ++ [LogLine.slowQuery data rs] }
    else c2
  (r.1, c3)

/-- How a call ends: by returning to the caller, or by a run-time panic that
propagates to the caller (deferred calls still run). -/
inductive Outcome where
  | returned
  | panicked
deriving DecidableEq, Repr

/-- The state of one `ScrollQuery` call.  `caller` is whatever state the callback
closes over; `fetched` lists the `(res, err)` pairs returned by `scrollService.Do`
so far and `callbacks` the arguments of the callback invocations so far. -/
structure ScrollRun (σ κ : Type) where
  client : Client σ
  caller : κ
  fetched : List Response
  callbacks : List (SearchResult × Option Err)
  outcome : Outcome

/-- The `for` loop of `ScrollQuery`.  The Go loop has no bound; `fuel` bounds the
number of iterations and `none` means the bound was reached before the loop ended.
The callback has no return value and no access to the loop: it is a function on the
state of the caller, `callback state res err`.  Reading `res.Hits.Hits` when
`res.Hits` is nil is a nil-pointer dereference, which panics. -/
def scrollLoop {σ κ : Type} (E : Engine σ) (scrollService : ScrollRequest)
    (data rs : String) (slowQueryMillisecond : Int)
    (callback : κ → SearchResult → Option Err → κ) :
    Nat → ScrollRun σ κ → Option (ScrollRun σ κ)
  | 0, _ => none
  | fuel + 1, st =>
    let r := E.scrollDo st.client.Client scrollService
    let res := r.1.1
    let err := r.1.2
    let c : Client σ :=
      { st.client with Client := r.2, calls := st.client.calls ++ [Call.scrollDo scrollService] }
    let st : ScrollRun σ κ := { st with client := c, fetched := st.fetched ++ [r.1] }
    if err = some Err.EOF then
      some st
    else
      let c : Client σ :=
        if slowCondition slowQueryMillisecond res then
          { st.client with logs := st.client.logs ++ [LogLine.slowQuery data rs] }
        else st.client
      let st : ScrollRun σ κ := { st with client := c }
      match res with
      | none =>
        some { st with client := { st.client with logs := st.client.logs ++ [LogLine.nilResults] } }
      | some res =>
        match res.Hits with
        | none =>
          some { st with
                  client := { st.client with logs := st.client.logs ++ [LogLine.hitsNil] }
                  outcome := Outcome.panicked }
        | some hits =>
          if hits.Hits.length = 0 then
            some st
          else
            scrollLoop E scrollService data rs slowQueryMillisecond callback fuel
              { st with
                  caller := callback st.caller res err
                  callbacks := st.callbacks ++ [(res, err)] }

/-- The `searchSource` that `ScrollQuery` builds from the query and the resolved
options (lines 157 to 175 of `query.go`); field lists, offset and size are not set. -/
def ScrollQuery.searchSource (query : String) (queryOpt : queryOption) : SearchSource :=
  let fetchSource : Bool := if queryOpt.FetchSource = some false then false else true
  let searchSource : SearchSource :=
    { fetchSource := fetchSource
      includes := []
      excludes := []
      query := query
      pageFrom := none
      size := none
      sorts := []
      highlight := none
      profile := false }
  let searchSource :=
    if queryOpt.Orders.length > 0 then applyOrders searchSource queryOpt.Orders
    else searchSource
  let searchSource :=
    match queryOpt.Highlight with
    | some h => { searchSource with highlight := some h }
    | none => searchSource
  { searchSource with profile := queryOpt.Profile }

/-- The `scrollService` that `ScrollQuery` builds (lines 182 to 190 of `query.go`). -/
def ScrollQuery.scrollService (index : List String) (query : String) (size : Int)
    (routes : List String) (queryOpt : queryOption) : ScrollRequest :=
  let scrollService : ScrollRequest :=
    { index := index
      source := ScrollQuery.searchSource query queryOpt
      size := size
      preference := DefaultPreference
      routing := none }
  let scrollService :=
    if routes.length > 0 then { scrollService with routing := some routes } else scrollService
  if queryOpt.Preference.length > 0 then
    { scrollService with preference := queryOpt.Preference }
  else { scrollService with preference := DefaultPreference }

/-- Go `(*Client).ScrollQuery`.  The deferred `scrollService.Clear(ctx)` runs when the
loop is left, whether by `break` or by a panic.  The result is `none` when the loop
is still running after `fuel` iterations. -/
def ScrollQuery {σ κ : Type} (E : Engine σ) (c : Client σ) (index : List String)
    (typeStr : String) (query : String) (size : Int) (routes : List String)
    (callback : κ → SearchResult → Option Err → κ) (caller : κ)
    (options : List (Option QueryOption)) (fuel : Nat) : Option (ScrollRun σ κ) :=
  let _ := typeStr
  let queryOpt := applyOptions options
  let searchSource := ScrollQuery.searchSource query queryOpt
  let data := E.marshal searchSource
  let rs := String.intercalate "," routes
  let c : Client σ :=
    if c.DebugMode ∨ c.QueryLogEnable ∨ queryOpt.EnableDSL then
      { c with logs := c.logs ++ [LogLine.dsl data rs] }
    else c
  let scrollService := ScrollQuery.scrollService index query size routes queryOpt
  let start : ScrollRun σ κ :=
    { client := c, caller := caller, fetched := [], callbacks := [], outcome := Outcome.returned }
  (scrollLoop E scrollService data rs queryOpt.SlowQueryMillisecond callback fuel start).map
    (fun st =>
      { st with
          client :=
            { st.client with
                Client := E.scrollClear st.client.Client scrollService
                calls := st.client.calls ++ [Call.scrollClear scrollService] } })

/-! ## `doc_operation.go` -/

/-- Go `DefaultVersionType`. -/
def DefaultVersionType : String := "external"

/-- Go `DefaultRefresh`. -/
def DefaultRefresh : String := "false"

/-- Go `RefreshTrue`. -/
def RefreshTrue : String := "true"

/-- Go `DefaultScriptLang`. -/
def DefaultScriptLang : String := "painless"

/-- Go `BulkDoc`. -/
structure BulkDoc where
  ID : String
  Routing : String
  Version : String
  VersionType : String
deriving DecidableEq, Repr

/-- Go `BulkCreateDoc`. -/
structure BulkCreateDoc extends BulkDoc where
  Doc : Es.Doc
deriving DecidableEq, Repr

/-- Go `BulkUpsertDoc`. -/
structure BulkUpsertDoc extends BulkCreateDoc where
  update : UpdateMap
deriving DecidableEq, Repr

/-- Go `BulkUpdateDoc`. -/
structure BulkUpdateDoc extends BulkDoc where
  update : UpdateMap
deriving DecidableEq, Repr

/-- A fresh `elastic.IndexService`, `c.Client.Index()`. -/
def IndexRequest.new : IndexRequest :=
  { index := none, opType := none, id := none, routing := none, bodyJson := none,
    refresh := none, version := none, versionType := none }

/-- A fresh `elastic.DeleteService`, `c.Client.Delete()`. -/
def DeleteRequest.new : DeleteRequest :=
  { index := none, id := none, routing := none, refresh := none, version := none,
    versionType := none }

/-- A fresh `elastic.UpdateService`, `c.Client.Update()`. -/
def UpdateRequest.new : UpdateRequest :=
  { index := none, id := none, routing := none, refresh := none, doc := none,
    docAsUpsert := none, upsert := none }

/-- A fresh `elastic.GetService`, `c.Client.Get()`. -/
def GetRequest.new : GetRequest :=
  { index := none, id := none, preference := none, routing := none }

/-- A fresh bulk item of the given kind. -/
def BulkableRequest.new (op : BulkOp) : BulkableRequest :=
  { op := op, index := none, id := none, routing := none, doc := none, updateDoc := none,
    upsert := none, docAsUpsert := none, version := none, versionType := none }

/-- The request `Create` builds. -/
def Create.indexService (indexName id routing : String) (doc : Doc) : IndexRequest :=
  let indexService : IndexRequest :=
    { IndexRequest.new with index := some indexName, opType := some "create" }
  let indexService :=
    if id.length > 0 then { indexService with id := some id } else indexService
  let indexService :=
    if routing.length > 0 then { indexService with routing := some routing } else indexService
  { indexService with bodyJson := some doc, refresh := some DefaultRefresh }

/-- Go `(*Client).Create`. -/
def Create {σ : Type} (E : Engine σ) (c : Client σ) (indexName id routing : String)
    (doc : Doc) : Option Err × Client σ :=
  let indexService := Create.indexService indexName id routing doc
  let r := E.index c.Client indexService
  (r.1, { c with Client := r.2, calls := c.calls ++ [Call.index indexService] })

/-- The item `BulkCreate` builds. -/
def BulkCreate.bulkCreateRequest (indexName id routing : String) (doc : Doc) :
    BulkableRequest :=
  let bulkCreateRequest : BulkableRequest :=
    { BulkableRequest.new BulkOp.create with index := some indexName, doc := some doc }
  let bulkCreateRequest :=
    if id.length > 0 then { bulkCreateRequest with id := some id } else bulkCreateRequest
  if routing.length > 0 then { bulkCreateRequest with routing := some routing }
  else bulkCreateRequest

/-- Go `(*Client).BulkCreate`. -/
def BulkCreate {σ : Type} (E : Engine σ) (c : Client σ) (indexName id routing : String)
    (doc : Doc) : Client σ :=
  let bulkCreateRequest := BulkCreate.bulkCreateRequest indexName id routing doc
  { c with
      Client := E.bulkProcessorAdd c.Client bulkCreateRequest
      calls := c.calls ++ [Call.bulkProcessorAdd bulkCreateRequest] }

/-- The item built in one iteration of the loop of `BulkCreateDocs`. -/
def BulkCreateDocs.bulkCreateRequest (indexName : String) (doc : BulkCreateDoc) :
    BulkableRequest :=
  let bulkCreateRequest : BulkableRequest :=
    { BulkableRequest.new BulkOp.create with index := some indexName }
  let bulkCreateRequest :=
    if doc.ID.length > 0 then { bulkCreateRequest with id := some doc.ID }
    else bulkCreateRequest
  if doc.Routing.length > 0 then { bulkCreateRequest with routing := some doc.Routing }
  else bulkCreateRequest

/-- The multi-operation request `BulkCreateDocs` builds: the loop over `docs` adds one
item per descriptor. -/
def BulkCreateDocs.bulkService (indexName : String) (docs : List BulkCreateDoc) :
    BulkRequest :=
  docs.foldl
    (fun bulkService doc =>
      { bulkService with
          requests :=
            bulkService.requests ++ [BulkCreateDocs.bulkCreateRequest indexName doc] })
    { errorTrace := true, refresh := none, requests := [] }

/-- Go `(*Client).BulkCreateDocs`. -/
def BulkCreateDocs {σ : Type} (E : Engine σ) (c : Client σ) (indexName : String)
    (docs : List BulkCreateDoc) : (Option BulkResponse × Option Err) × Client σ :=
  let bulkService := BulkCreateDocs.bulkService indexName docs
  let r := E.bulk c.Client bulkService
  (r.1, { c with Client := r.2, calls := c.calls ++ [Call.bulk bulkService] })

/-- The item `BulkCreateWithVersion` builds. -/
def BulkCreateWithVersion.bulkCreateRequest (indexName id routing : String) (version : Int)
    (doc : Doc) : BulkableRequest :=
  let bulkCreateRequest : BulkableRequest :=
    { BulkableRequest.new BulkOp.index with
        index := some indexName
        doc := some doc
        versionType := some DefaultVersionType
        version := some version }
  let bulkCreateRequest :=
    if id.length > 0 then { bulkCreateRequest with id := some id } else bulkCreateRequest
  if routing.length > 0 then { bulkCreateRequest with routing := some routing }
  else bulkCreateRequest

/-- Go `(*Client).BulkCreateWithVersion`. -/
def BulkCreateWithVersion {σ : Type} (E : Engine σ) (c : Client σ)
    (indexName id routing : String) (version : Int) (doc : Doc) : Client σ :=
  let bulkCreateRequest :=
    BulkCreateWithVersion.bulkCreateRequest indexName id routing version doc
  { c with
      Client := E.bulkProcessorAdd c.Client bulkCreateRequest
      calls := c.calls ++ [Call.bulkProcessorAdd bulkCreateRequest] }

/-- The request `Delete` builds. -/
def Delete.deleteService (indexName id routing : String) : DeleteRequest :=
  let deleteService : DeleteRequest :=
    { DeleteRequest.new with
        index := some indexName, id := some id, refresh := some DefaultRefresh }
  if routing.length > 0 then { deleteService with routing := some routing } else deleteService

/-- Go `(*Client).Delete`. -/
def Delete {σ : Type} (E : Engine σ) (c : Client σ) (indexName id routing : String) :
    Option Err × Client σ :=
  let deleteService := Delete.deleteService indexName id routing
  let r := E.delete c.Client deleteService
  (r.1, { c with Client := r.2, calls := c.calls ++ [Call.delete deleteService] })

/-- The request `DeleteRefresh` builds. -/
def DeleteRefresh.deleteService (indexName id routing : String) : DeleteRequest :=
  let deleteService : DeleteRequest :=
    { DeleteRequest.new with
        index := some indexName, id := some id, refresh := some RefreshTrue }
  if routing.length > 0 then { deleteService with routing := some routing } else deleteService

/-- Go `(*Client).DeleteRefresh`. -/
def DeleteRefresh {σ : Type} (E : Engine σ) (c : Client σ) (indexName id routing : String) :
    Option Err × Client σ :=
  let deleteService := DeleteRefresh.deleteService indexName id routing
  let r := E.delete c.Client deleteService
  (r.1, { c with Client := r.2, calls := c.calls ++ [Call.delete deleteService] })

/-- The request `DeleteWithVersion` builds. -/
def DeleteWithVersion.deleteService (indexName id routing : String) (version : Int) :
    DeleteRequest :=
  let deleteService : DeleteRequest :=
    { DeleteRequest.new with
        index := some indexName
        id := some id
        versionType := some DefaultVersionType
        version := some version
        refresh := some DefaultRefresh }
  if routing.length > 0 then { deleteService with routing := some routing } else deleteService

/-- Go `(*Client).DeleteWithVersion`. -/
def DeleteWithVersion {σ : Type} (E : Engine σ) (c : Client σ)
    (indexName id routing : String) (version : Int) : Option Err × Client σ :=
  let deleteService := DeleteWithVersion.deleteService indexName id routing version
  let r := E.delete c.Client deleteService
  (r.1, { c with Client := r.2, calls := c.calls ++ [Call.delete deleteService] })

/-- The request `DeleteByQuery` builds; its parameter `id` is not used. -/
def DeleteByQuery.deleteService (indexName id routing query : String) :
    DeleteByQueryRequest :=
  let _ := id
  let deleteService : DeleteByQueryRequest :=
    { index := indexName
      query := query
      proceedOnVersionConflict := true
      refresh := some DefaultRefresh
      routing := none }
  if routing.length > 0 then { deleteService with routing := some routing } else deleteService

/-- Go `(*Client).DeleteByQuery`. -/
def DeleteByQuery {σ : Type} (E : Engine σ) (c : Client σ)
    (indexName id routing query : String) : Option Err × Client σ :=
  let deleteService := DeleteByQuery.deleteService indexName id routing query
  let r := E.deleteByQuery c.Client deleteService
  (r.1, { c with Client := r.2, calls := c.calls ++ [Call.deleteByQuery deleteService] })

/-- The item `BulkDelete` builds. -/
def BulkDelete.bulkDeleteRequest (indexName id routing : String) (version : Int) :
    BulkableRequest :=
  let bulkDeleteRequest : BulkableRequest :=
    { BulkableRequest.new BulkOp.delete with
        index := some indexName
        versionType := some DefaultVersionType
        version := some version
        id := some id }
  if routing.length > 0 then { bulkDeleteRequest with routing := some routing }
  else bulkDeleteRequest

/-- Go `(*Client).BulkDelete`. -/
def BulkDelete {σ : Type} (E : Engine σ) (c : Client σ) (indexName id routing : String)
    (version : Int) : Client σ :=
  let bulkDeleteRequest := BulkDelete.bulkDeleteRequest indexName id routing version
  { c with
      Client := E.bulkProcessorAdd c.Client bulkDeleteRequest
      calls := c.calls ++ [Call.bulkProcessorAdd bulkDeleteRequest] }

/-- The item `BulkDeleteWithVersion` builds. -/
def BulkDeleteWithVersion.bulkDeleteRequest (indexName id routing : String) (version : Int) :
    BulkableRequest :=
  let bulkDeleteRequest : BulkableRequest :=
    { BulkableRequest.new BulkOp.delete with
        index := some indexName
        id := some id
        versionType := some DefaultVersionType
        version := some version }
  if routing.length > 0 then { bulkDeleteRequest with routing := some routing }
  else bulkDeleteRequest

/-- Go `(*Client).BulkDeleteWithVersion`. -/
def BulkDeleteWithVersion {σ : Type} (E : Engine σ) (c : Client σ)
    (indexName id routing : String) (version : Int) : Client σ :=
  let bulkDeleteRequest :=
    BulkDeleteWithVersion.bulkDeleteRequest indexName id routing version
  { c with
      Client := E.bulkProcessorAdd c.Client bulkDeleteRequest
      calls := c.calls ++ [Call.bulkProcessorAdd bulkDeleteRequest] }

/-- The request `Update` builds. -/
def Update.updateService (indexName id routing : String) (update : UpdateMap) :
    UpdateRequest :=
  let updateService : UpdateRequest :=
    { UpdateRequest.new with
        index := some indexName, id := some id, refresh := some DefaultRefresh }
  let updateService :=
    if routing.length > 0 then { updateService with routing := some routing }
    else updateService
  { updateService with doc := some update }

/-- Go `(*Client).Update`. -/
def Update {σ : Type} (E : Engine σ) (c : Client σ) (indexName id routing : String)
    (update : UpdateMap) : Option Err × Client σ :=
  let updateService := Update.updateService indexName id routing update
  let r := E.update c.Client updateService
  (r.1, { c with Client := r.2, calls := c.calls ++ [Call.update updateService] })

/-- The request `UpdateRefresh` builds. -/
def UpdateRefresh.updateService (indexName id routing : String) (update : UpdateMap) :
    UpdateRequest :=
  let updateService : UpdateRequest :=
    { UpdateRequest.new with
        index := some indexName, id := some id, refresh := some RefreshTrue }
  let updateService :=
    if routing.length > 0 then { updateService with routing := some routing }
    else updateService
  { updateService with doc := some update }

/-- Go `(*Client).UpdateRefresh`. -/
def UpdateRefresh {σ : Type} (E : Engine σ) (c : Client σ) (indexName id routing : String)
    (update : UpdateMap) : Option Err × Client σ :=
  let updateService := UpdateRefresh.updateService indexName id routing update
  let r := E.update c.Client updateService
  (r.1, { c with Client := r.2, calls := c.calls ++ [Call.update updateService] })

/-- The request `UpdateQuery` builds. -/
def UpdateQuery.updateByQueryService (indexName : String) (routings : List String)
    (query script : String) (scriptParams : UpdateMap) : UpdateByQueryRequest :=
  let updateByQueryService : UpdateByQueryRequest :=
    { index := indexName
      query := query
      script := script
      scriptParams := scriptParams
      scriptLang := DefaultScriptLang
      refresh := some DefaultRefresh
      proceedOnVersionConflict := true
      routing := none }
  if routings.length > 0 then { updateByQueryService with routing := some routings }
  else updateByQueryService

/-- Go `(*Client).UpdateQuery`. -/
def UpdateQuery {σ : Type} (E : Engine σ) (c : Client σ) (indexName : String)
    (routings : List String) (query script : String) (scriptParams : UpdateMap) :
    (Option BulkIndexByScrollResponse × Option Err) × Client σ :=
  let updateByQueryService :=
    UpdateQuery.updateByQueryService indexName routings query script scriptParams
  let r := E.updateByQuery c.Client updateByQueryService
  (r.1, { c with Client := r.2, calls := c.calls ++ [Call.updateByQuery updateByQueryService] })

/-- The item `BulkUpdate` builds. -/
def BulkUpdate.bulkService (indexName id routing : String) (update : UpdateMap) :
    BulkableRequest :=
  let bulkService : BulkableRequest :=
    { BulkableRequest.new BulkOp.update with
        index := some indexName, id := some id, updateDoc := some update }
  if routing.length > 0 then { bulkService with routing := some routing } else bulkService

/-- Go `(*Client).BulkUpdate`. -/
def BulkUpdate {σ : Type} (E : Engine σ) (c : Client σ) (indexName id routing : String)
    (update : UpdateMap) : Client σ :=
  let bulkService := BulkUpdate.bulkService indexName id routing update
  { c with
      Client := E.bulkProcessorAdd c.Client bulkService
      calls := c.calls ++ [Call.bulkProcessorAdd bulkService] }

/-- The item built in one iteration of the loop of `BulkUpdateDocs`; no index is set
on it. -/
def BulkUpdateDocs.doc (update : BulkUpdateDoc) : BulkableRequest :=
  let doc : BulkableRequest :=
    { BulkableRequest.new BulkOp.update with
        id := some update.ID, updateDoc := some update.update }
  if update.Routing.length > 0 then { doc with routing := some update.Routing } else doc

/-- The multi-operation request `BulkUpdateDocs` builds; its parameter `index` is not
used. -/
def BulkUpdateDocs.bulkService (index : String) (updates : List BulkUpdateDoc) : BulkRequest :=
  let _ := index
  updates.foldl
    (fun bulkService update =>
      { bulkService with requests := bulkService.requests ++ [BulkUpdateDocs.doc update] })
    { errorTrace := true, refresh := some DefaultRefresh, requests := [] }

/-- Go `(*Client).BulkUpdateDocs`. -/
def BulkUpdateDocs {σ : Type} (E : Engine σ) (c : Client σ) (index : String)
    (updates : List BulkUpdateDoc) : (Option BulkResponse × Option Err) × Client σ :=
  let bulkService := BulkUpdateDocs.bulkService index updates
  let r := E.bulk c.Client bulkService
  (r.1, { c with Client := r.2, calls := c.calls ++ [Call.bulk bulkService] })

/-- The request `UpsertWithVersion` builds. -/
def UpsertWithVersion.indexService (indexName id routing : String) (doc : Doc)
    (version : Int) : IndexRequest :=
  let indexService : IndexRequest :=
    { IndexRequest.new with
        opType := some "index"
        index := some indexName
        id := some id
        refresh := some DefaultRefresh
        version := some version
        versionType := some DefaultVersionType }
  let indexService :=
    if routing.length > 0 then { indexService with routing := some routing } else indexService
  { indexService with bodyJson := some doc }

/-- Go `(*Client).UpsertWithVersion`. -/
def UpsertWithVersion {σ : Type} (E : Engine σ) (c : Client σ)
    (indexName id routing : String) (doc : Doc) (version : Int) : Option Err × Client σ :=
  let indexService := UpsertWithVersion.indexService indexName id routing doc version
  let r := E.index c.Client indexService
  (r.1, { c with Client := r.2, calls := c.calls ++ [Call.index indexService] })

/-- The request `Upsert` builds. -/
def Upsert.updateService (indexName id routing : String) (update : UpdateMap) (doc : Doc) :
    UpdateRequest :=
  let updateService : UpdateRequest :=
    { UpdateRequest.new with
        index := some indexName
        id := some id
        refresh := some DefaultRefresh
        docAsUpsert := some true }
  let updateService :=
    if routing.length > 0 then { updateService with routing := some routing }
    else updateService
  { updateService with doc := some update, upsert := some doc }

/-- Go `(*Client).Upsert`. -/
def Upsert {σ : Type} (E : Engine σ) (c : Client σ) (indexName id routing : String)
    (update : UpdateMap) (doc : Doc) : Option Err × Client σ :=
  let updateService := Upsert.updateService indexName id routing update doc
  let r := E.update c.Client updateService
  (r.1, { c with Client := r.2, calls := c.calls ++ [Call.update updateService] })

/-- The item `BulkUpsert` builds. -/
def BulkUpsert.bulkUpdateRequest (indexName id routing : String) (update : UpdateMap)
    (doc : Doc) : BulkableRequest :=
  let bulkUpdateRequest : BulkableRequest :=
    { BulkableRequest.new BulkOp.update with
        index := some indexName
        updateDoc := some update
        id := some id
        upsert := some doc
        docAsUpsert := some true }
  if routing.length > 0 then { bulkUpdateRequest with routing := some routing }
  else bulkUpdateRequest

/-- Go `(*Client).BulkUpsert`. -/
def BulkUpsert {σ : Type} (E : Engine σ) (c : Client σ) (indexName id routing : String)
    (update : UpdateMap) (doc : Doc) : Client σ :=
  let bulkUpdateRequest := BulkUpsert.bulkUpdateRequest indexName id routing update doc
  { c with
      Client := E.bulkProcessorAdd c.Client bulkUpdateRequest
      calls := c.calls ++ [Call.bulkProcessorAdd bulkUpdateRequest] }

/-- The item built in one iteration of the loop of `BulkUpsertDocs` (the local
variable `index` of the source); no index is set on it. -/
def BulkUpsertDocs.index (doc : BulkUpsertDoc) : BulkableRequest :=
  let index : BulkableRequest :=
    { BulkableRequest.new BulkOp.update with
        id := some doc.ID
        updateDoc := some doc.update
        upsert := some doc.Doc
        docAsUpsert := some true }
  if doc.Routing.length > 0 then { index with routing := some doc.Routing } else index

/-- The multi-operation request `BulkUpsertDocs` builds; its parameter `index` is not
used. -/
def BulkUpsertDocs.bulkService (index : String) (docs : List BulkUpsertDoc) : BulkRequest :=
  let _ := index
  docs.foldl
    (fun bulkService doc =>
      { bulkService with requests := bulkService.requests ++ [BulkUpsertDocs.index doc] })
    { errorTrace := true, refresh := some DefaultRefresh, requests := [] }

/-- Go `(*Client).BulkUpsertDocs`. -/
def BulkUpsertDocs {σ : Type} (E : Engine σ) (c : Client σ) (index : String)
    (docs : List BulkUpsertDoc) : (Option BulkResponse × Option Err) × Client σ :=
  let bulkService := BulkUpsertDocs.bulkService index docs
  let r := E.bulk c.Client bulkService
  (r.1, { c with Client := r.2, calls := c.calls ++ [Call.bulk bulkService] })

/-- The request `Get` builds (`query.go`). -/
def Get.getService (indexName id routing : String) : GetRequest :=
  let getService : GetRequest :=
    { GetRequest.new with
        index := some indexName, id := some id, preference := some DefaultPreference }
  if routing.length > 0 then { getService with routing := some routing } else getService

/-- Go `(*Client).Get`. -/
def Get {σ : Type} (E : Engine σ) (c : Client σ) (indexName id routing : String) :
    (Option GetResult × Option Err) × Client σ :=
  let getService := Get.getService indexName id routing
  let r := E.get c.Client getService
  (r.1, { c with Client := r.2, calls := c.calls ++ [Call.get getService] })

/-! ## Observations used to state the properties -/

/-- The slow-query rule in the words of the specification: a result is returned, the
threshold is greater than zero, and the reported execution time in milliseconds is at
least the threshold. -/
def slowRule (threshold : Int) (res : Option SearchResult) : Bool :=
  match res with
  | some r => decide (0 < threshold) && decide (threshold ≤ r.TookInMillis)
  | none => false

/-- The routing parameter a request has to carry for a supplied routing key, in the
words of the specification: no parameter for the empty key, the key itself otherwise. -/
def routingParam (routing : String) : Option String :=
  if routing = "" then none else some routing

/-- The routing parameter a request has to carry for a supplied routing list: no
parameter for the empty list, the list itself otherwise. -/
def routingListParam (routings : List String) : Option (List String) :=
  if routings = [] then none else some routings

/-- The answers of the engine to the first `n` consecutive `scrollService.Do` requests
sent from engine state `s`. -/
def fetches {σ : Type} (E : Engine σ) (scrollService : ScrollRequest) :
    Nat → σ → List Response
  | 0, _ => []
  | n + 1, s =>
    (E.scrollDo s scrollService).1 ::
      fetches E scrollService n (E.scrollDo s scrollService).2

/-- Number of fetched answers that did not come with the end-of-stream signal and
whose result meets the slow-query rule for the threshold. -/
def slowPages (threshold : Int) (fetched : List Response) : Nat :=
  (fetched.filter (fun r => decide (r.2 ≠ some Err.EOF) && slowRule threshold r.1)).length

/-- Number of fetched answers whose result meets the slow-query rule for the
threshold, whatever error value came with the result. -/
def slowResults (threshold : Int) (fetched : List Response) : Nat :=
  (fetched.filter (fun r => slowRule threshold r.1)).length

/-- An answer after which the scroll goes on: it is not the end-of-stream signal and
it carries a result whose hit container holds at least one hit. -/
def pageWithHits (r : Response) : Bool :=
  decide (r.2 ≠ some Err.EOF) &&
    (match r.1 with
     | none => false
     | some res =>
       match res.Hits with
       | none => false
       | some hits => decide (hits.Hits ≠ []))

/-- Number of `scrollService.Do` requests in a trace. -/
def scrollDoCalls (cs : List Call) : Nat :=
  (cs.filter (fun c => match c with | Call.scrollDo _ => true | _ => false)).length

/-- Number of `scrollService.Clear` requests in a trace. -/
def scrollClearCalls (cs : List Call) : Nat :=
  (cs.filter (fun c => match c with | Call.scrollClear _ => true | _ => false)).length

/-- Number of slow-query lines in a log. -/
def slowLines (ls : List LogLine) : Nat :=
  (ls.filter (fun l => match l with | LogLine.slowQuery _ _ => true | _ => false)).length

/-! ## A scripted engine

A test double in the sense of the engine interface: it answers existence checks from
a list of existing index names, fails every create call when `createError` is set,
and serves scroll fetches from a script.  It is used to run the operations on
concrete inputs. -/

/-- State of the scripted engine. -/
structure Stub where
  indices : List String
  createError : Option Err
  searchResponse : Response
  pages : List Response
deriving DecidableEq, Repr

/-- The scripted engine. -/
def stubEngine : Engine Stub where
  bulkProcessorDo s _ := (none, s)
  indexExists s indexName := ((decide (indexName ∈ s.indices), none), s)
  createIndex s indexName _ :=
    match s.createError with
    | some e => (some e, s)
    | none => (none, { s with indices := indexName :: s.indices })
  search s _ := (s.searchResponse, s)
  scrollDo s _ :=
    match s.pages with
    | [] => ((none, some Err.EOF), s)
    | p :: rest => (p, { s with pages := rest })
  scrollClear s _ := { s with pages := [] }
  marshal src := src.query
  index s _ := (none, s)
  delete s _ := (none, s)
  deleteByQuery s _ := (none, s)
  update s _ := (none, s)
  updateByQuery s _ := ((none, none), s)
  get s _ := ((none, none), s)
  bulk s _ := ((some { Took := 1, Errors := false }, none), s)
  bulkProcessorAdd s _ := s

/-- A page with the given execution time and one hit per given document id. -/
def samplePage (took : Int) (ids : List String) : SearchResult :=
  { TookInMillis := took
    Hits := some { Hits := ids.map (fun id => { Index := "orders", Id := id, Source := "" }) } }

/-- A callback that records the ids of the hits it is handed. -/
def collectIds (seen : List String) (res : SearchResult) (_err : Option Err) : List String :=
  seen ++ (match res.Hits with
    | some hits => hits.Hits.map (fun h => h.Id)
    | none => [])

/-- An empty scripted engine. -/
def Stub.empty : Stub :=
  { indices := [], createError := none, searchResponse := (none, none), pages := [] }

/-- A scripted engine whose cursor serves two pages with hits and then, the way the
elastic client ends a scroll, an empty page together with the end-of-stream signal. -/
def sampleScroll : Stub :=
  { Stub.empty with
      pages :=
        [(some (samplePage 5 ["a", "b"]), none),
         (some (samplePage 7 ["c"]), none),
         (some (samplePage 1 []), some Err.EOF)] }

/-- A scripted engine that answers every search with one page that took 7 ms. -/
def sampleSearch : Stub :=
  { Stub.empty with searchResponse := (some (samplePage 7 ["a"]), none) }

/-- A scripted engine whose cursor serves one page with hits and then fails with a
transport error and no result. -/
def sampleTransportError : Stub :=
  { Stub.empty with
      pages := [(some (samplePage 5 ["a", "b"]), none), (none, some (Err.other "timeout"))] }

/-- Two create descriptors: one with id, routing key and body, one with a body only. -/
def sampleCreateDocs : List BulkCreateDoc :=
  [{ ID := "1", Routing := "eu", Version := "", VersionType := "", Doc := "first body" },
   { ID := "", Routing := "", Version := "", VersionType := "", Doc := "second body" }]

/-- A scripted engine whose cursor serves one result without a hit container, which
the elastic client returns together with the end-of-stream signal. -/
def sampleNilHits : Stub :=
  { Stub.empty with pages := [(some { TookInMillis := 3, Hits := none }, some Err.EOF)] }

/-- A client as `InitClient` leaves it before `newClient` runs, over the scripted
engine state `s`, with bulk configuration `b`. -/
def stubClient (s : Stub) (b : Bulk) : Client Stub :=
  { Name := ""
    Urls := []
    QueryLogEnable := false
    Username := ""
    password := ""
    Bulk := b
    Client := s
    BulkProcessor := none
    DebugMode := false
    CacheIndices := []
    calls := []
    logs := [] }

end Es

namespace Es

/-! ## Cache lemmas -/

theorem Cache.Delete_cons (k : String) (v : Bool) (rest : Cache) (key : String) :
    Cache.Delete ((k, v) :: rest) key =
      if k = key then Cache.Delete rest key else (k, v) :: Cache.Delete rest key := by
  by_cases h : k = key <;> simp [Cache.Delete, List.filter_cons, h]

theorem Cache.Load_cons (k : String) (v : Bool) (rest : Cache) (key : String) :
    Cache.Load ((k, v) :: rest) key = if k = key then some v else Cache.Load rest key := rfl

theorem Cache.Load_Delete_self (m : Cache) (key : String) :
    Cache.Load (Cache.Delete m key) key = none := by
  induction m with
  | nil => rfl
  | cons kv rest ih =>
    obtain ⟨k, v⟩ := kv
    rw [Cache.Delete_cons]
    by_cases h : k = key
    · rw [if_pos h]; exact ih
    · rw [if_neg h, Cache.Load_cons, if_neg h]; exact ih

theorem Cache.Load_Delete_other (m : Cache) (key other : String) (h : other ≠ key) :
    Cache.Load (Cache.Delete m key) other = Cache.Load m other := by
  induction m with
  | nil => rfl
  | cons kv rest ih =>
    obtain ⟨k, v⟩ := kv
    rw [Cache.Delete_cons, Cache.Load_cons]
    by_cases hk : k = key
    · have hko : ¬ k = other := fun e => h (e ▸ hk)
      rw [if_pos hk, if_neg hko]; exact ih
    · rw [if_neg hk, Cache.Load_cons]
      by_cases hko : k = other
      · rw [if_pos hko, if_pos hko]
      · rw [if_neg hko, if_neg hko]; exact ih

theorem Cache.Load_Store_self (m : Cache) (key : String) (value : Bool) :
    Cache.Load (Cache.Store m key value) key = some value := by
  simp [Cache.Store, Cache.Load]

theorem Cache.Load_Store_other (m : Cache) (key other : String) (value : Bool)
    (h : other ≠ key) :
    Cache.Load (Cache.Store m key value) other = Cache.Load m other := by
  have hk : ¬ key = other := fun e => h e.symm
  simp [Cache.Store, Cache.Load, hk, Cache.Load_Delete_other m key other h]

/-! ## Trace lemmas -/

theorem createCalls_append (xs ys : List Call) :
    createCalls (xs ++ ys) = createCalls xs + createCalls ys := by
  simp [createCalls, List.filter_append]

theorem existsCalls_append (xs ys : List Call) :
    existsCalls (xs ++ ys) = existsCalls xs + existsCalls ys := by
  simp [existsCalls, List.filter_append]

theorem IndexExists_createCalls {σ : Type} (E : Engine σ) (c : Client σ)
    (indexName : String) (forceCheck : Bool) :
    createCalls (IndexExists E c indexName forceCheck).2.calls = createCalls c.calls := by
  unfold IndexExists
  split
  · rfl
  · dsimp only
    split <;> simp [createCalls_append, createCalls]

theorem IndexExists_cache_of_false {σ : Type} (E : Engine σ) (c : Client σ)
    (indexName : String) (forceCheck : Bool)
    (h : (IndexExists E c indexName forceCheck).1.1 = false) :
    (IndexExists E c indexName forceCheck).2.CacheIndices = c.CacheIndices := by
  unfold IndexExists at h ⊢
  split
  · rfl
  · rename_i hc
    rw [if_neg hc] at h
    dsimp only at h ⊢
    rw [h]
    rfl

/-! ## Index existence and creation -/

/-- C1: for every client state and every index name absent from the cache,
`IndexExists` with `forceCheck = false` returns `(true, nil)`, sends nothing to the
engine (the request trace and the engine state are untouched, so the number of live
existence checks does not change) and leaves the cache as it was. -/
theorem IndexExists_absent_short_circuit {σ : Type} (E : Engine σ) (c : Client σ)
    (indexName : String) (h : c.CacheIndices.Load indexName = none) :
    (IndexExists E c indexName false).1 = (true, none) ∧
      (IndexExists E c indexName false).2.calls = c.calls ∧
      existsCalls (IndexExists E c indexName false).2.calls = existsCalls c.calls ∧
      (IndexExists E c indexName false).2.Client = c.Client ∧
      (IndexExists E c indexName false).2.CacheIndices = c.CacheIndices := by
  have e : IndexExists E c indexName false = ((true, none), c) := by
    simp [IndexExists, h]
  rw [e]
  exact ⟨rfl, rfl, rfl, rfl, rfl⟩

/-- C1 at a concrete input: the cache holds "users" only and "orders" is looked up. -/
theorem IndexExists_absent_short_circuit_witness :
    (AddIndexCache (stubClient Stub.empty DefaultBulk) ["users"]).CacheIndices.Load "orders"
        = none ∧
      (IndexExists stubEngine (AddIndexCache (stubClient Stub.empty DefaultBulk) ["users"])
          "orders" false).1 = (true, none) ∧
      existsCalls (IndexExists stubEngine
          (AddIndexCache (stubClient Stub.empty DefaultBulk) ["users"]) "orders" false).2.calls
        = 0 :=
  ⟨by decide,
   (IndexExists_absent_short_circuit stubEngine
      (AddIndexCache (stubClient Stub.empty DefaultBulk) ["users"]) "orders" (by decide)).1,
   (IndexExists_absent_short_circuit stubEngine
      (AddIndexCache (stubClient Stub.empty DefaultBulk) ["users"]) "orders"
      (by decide)).2.2.1⟩

theorem CreateIndex_of_check_false {σ : Type} (E : Engine σ) (c : Client σ)
    (indexName bodyJson : String) (forceCheck : Bool)
    (h : (IndexExists E c indexName forceCheck).1 = (false, none)) :
    CreateIndex E c indexName bodyJson forceCheck =
      ((E.createIndex (IndexExists E c indexName forceCheck).2.Client indexName bodyJson).1,
        if (E.createIndex (IndexExists E c indexName forceCheck).2.Client indexName bodyJson).1
            ≠ none then
          { (IndexExists E c indexName forceCheck).2 with
              Client :=
                (E.createIndex (IndexExists E c indexName forceCheck).2.Client indexName
                  bodyJson).2
              calls :=
                (IndexExists E c indexName forceCheck).2.calls ++
                  [Call.createIndex indexName bodyJson]
              CacheIndices :=
                (IndexExists E c indexName forceCheck).2.CacheIndices.Store indexName true }
        else
          { (IndexExists E c indexName forceCheck).2 with
              Client :=
                (E.createIndex (IndexExists E c indexName forceCheck).2.Client indexName
                  bodyJson).2
              calls :=
                (IndexExists E c indexName forceCheck).2.calls ++
                  [Call.createIndex indexName bodyJson] }) := by
  have h1 : (IndexExists E c indexName forceCheck).1.1 = false := by rw [h]
  have h2 : (IndexExists E c indexName forceCheck).1.2 = none := by rw [h]
  unfold CreateIndex
  simp only [h1, h2, ne_eq, not_true_eq_false, if_false, Bool.false_eq_true]

theorem CreateIndex_of_check_not_false {σ : Type} (E : Engine σ) (c : Client σ)
    (indexName bodyJson : String) (forceCheck : Bool)
    (h : (IndexExists E c indexName forceCheck).1 ≠ (false, none)) :
    CreateIndex E c indexName bodyJson forceCheck =
      (none, (IndexExists E c indexName forceCheck).2) := by
  unfold CreateIndex
  dsimp only
  by_cases h2 : (IndexExists E c indexName forceCheck).1.2 = none
  · have h1 : (IndexExists E c indexName forceCheck).1.1 = true := by
      cases hb : (IndexExists E c indexName forceCheck).1.1
      · exact absurd (Prod.ext hb h2) h
      · rfl
    simp [h1, h2]
  · simp [h2]

theorem CreateIndex_createCalls {σ : Type} (E : Engine σ) (c : Client σ)
    (indexName bodyJson : String) (forceCheck : Bool) :
    createCalls (CreateIndex E c indexName bodyJson forceCheck).2.calls =
      createCalls c.calls +
        (if (IndexExists E c indexName forceCheck).1 = (false, none) then 1 else 0) := by
  by_cases h : (IndexExists E c indexName forceCheck).1 = (false, none)
  · rw [CreateIndex_of_check_false E c indexName bodyJson forceCheck h, if_pos h]
    dsimp only
    have one : createCalls [Call.createIndex indexName bodyJson] = 1 := rfl
    split <;> dsimp only <;> rw [createCalls_append, IndexExists_createCalls, one]
  · rw [CreateIndex_of_check_not_false E c indexName bodyJson forceCheck h, if_neg h]
    simp [IndexExists_createCalls]

/-- C3: `CreateIndex` sends the create request if and only if its existence check
returned `(false, nil)`; in that case the request trace is the one left by the check
followed by that one create request.  When the check reports that the index exists,
and when the check fails with an error, `CreateIndex` returns nil, sends no create
request and leaves the client as the check left it. -/
theorem CreateIndex_creates_iff_check_negative {σ : Type} (E : Engine σ) (c : Client σ)
    (indexName bodyJson : String) (forceCheck : Bool) :
    (createCalls (CreateIndex E c indexName bodyJson forceCheck).2.calls
          = createCalls c.calls + 1 ↔
        (IndexExists E c indexName forceCheck).1 = (false, none)) ∧
      (createCalls (CreateIndex E c indexName bodyJson forceCheck).2.calls
          = createCalls c.calls ↔
        (IndexExists E c indexName forceCheck).1 ≠ (false, none)) ∧
      ((IndexExists E c indexName forceCheck).1 = (false, none) ∧
          (CreateIndex E c indexName bodyJson forceCheck).2.calls =
            (IndexExists E c indexName forceCheck).2.calls ++
              [Call.createIndex indexName bodyJson] ∨
        ((IndexExists E c indexName forceCheck).1.1 = true ∨
            (IndexExists E c indexName forceCheck).1.2 ≠ none) ∧
          CreateIndex E c indexName bodyJson forceCheck =
            (none, (IndexExists E c indexName forceCheck).2)) := by
  have hc := CreateIndex_createCalls E c indexName bodyJson forceCheck
  by_cases h : (IndexExists E c indexName forceCheck).1 = (false, none)
  · rw [if_pos h] at hc
    refine ⟨⟨fun _ => h, fun _ => hc⟩, ⟨fun e => ?_, fun n => absurd h n⟩, Or.inl ⟨h, ?_⟩⟩
    · omega
    · rw [CreateIndex_of_check_false E c indexName bodyJson forceCheck h]
      dsimp only
      split <;> rfl
  · rw [if_neg h] at hc
    refine ⟨⟨fun e => ?_, fun e => absurd e h⟩, ⟨fun _ => h, fun _ => hc⟩, Or.inr ⟨?_, ?_⟩⟩
    · omega
    · by_cases h2 : (IndexExists E c indexName forceCheck).1.2 = none
      · left
        cases hb : (IndexExists E c indexName forceCheck).1.1
        · exact absurd (Prod.ext hb h2) h
        · rfl
      · exact Or.inr h2
    · exact CreateIndex_of_check_not_false E c indexName bodyJson forceCheck h

/-- C4: when `CreateIndex` reaches the create request (its existence check returned
`(false, nil)`) and that request fails with error `e`, `CreateIndex` returns exactly
`e`, the cache afterwards holds the index name with value true, and every other name
is looked up as before the call. -/
theorem CreateIndex_create_error_marks_cache {σ : Type} (E : Engine σ) (c : Client σ)
    (indexName bodyJson : String) (forceCheck : Bool) (e : Err)
    (hcheck : (IndexExists E c indexName forceCheck).1 = (false, none))
    (hcreate :
      (E.createIndex (IndexExists E c indexName forceCheck).2.Client indexName bodyJson).1
        = some e) :
    (CreateIndex E c indexName bodyJson forceCheck).1 = some e ∧
      (CreateIndex E c indexName bodyJson forceCheck).2.CacheIndices.Load indexName
        = some true ∧
      ∀ other : String, other ≠ indexName →
        (CreateIndex E c indexName bodyJson forceCheck).2.CacheIndices.Load other
          = c.CacheIndices.Load other := by
  have hk : (IndexExists E c indexName forceCheck).2.CacheIndices = c.CacheIndices :=
    IndexExists_cache_of_false E c indexName forceCheck (by rw [hcheck])
  rw [CreateIndex_of_check_false E c indexName bodyJson forceCheck hcheck, hcreate]
  simp only [ne_eq, reduceCtorEq, not_false_eq_true, if_true]
  refine ⟨trivial, ?_, ?_⟩
  · exact Cache.Load_Store_self _ _ _
  · intro other ho
    rw [Cache.Load_Store_other _ _ _ _ ho, hk]

/-- C4 at a concrete input: an engine without the index that rejects every create request. -/
theorem CreateIndex_create_error_marks_cache_witness :
    (CreateIndex stubEngine
        (AddIndexCache
          (stubClient { Stub.empty with createError := some (Err.other "read-only") }
            DefaultBulk) ["users"])
        "orders" "body" true).1 = some (Err.other "read-only") ∧
      (CreateIndex stubEngine
        (AddIndexCache
          (stubClient { Stub.empty with createError := some (Err.other "read-only") }
            DefaultBulk) ["users"])
        "orders" "body" true).2.CacheIndices.Load "orders" = some true ∧
      (CreateIndex stubEngine
        (AddIndexCache
          (stubClient { Stub.empty with createError := some (Err.other "read-only") }
            DefaultBulk) ["users"])
        "orders" "body" true).2.CacheIndices.Load "users" = some true :=
  have w := CreateIndex_create_error_marks_cache stubEngine
    (AddIndexCache
      (stubClient { Stub.empty with createError := some (Err.other "read-only") }
        DefaultBulk) ["users"])
    "orders" "body" true (Err.other "read-only") (by decide) (by decide)
  ⟨w.1, w.2.1, (w.2.2 "users" (by decide)).trans (by decide)⟩

/-- C5, as stated, fails: on a client with an empty cache over an engine without
the index, `CreateIndex` with `forceCheck = true` sends one create request, the
request succeeds, nil is returned, and the cache still has no entry for the name. -/
theorem CreateIndex_success_leaves_name_uncached :
    (IndexExists stubEngine (stubClient Stub.empty DefaultBulk) "orders" true).1
        = (false, none) ∧
      createCalls
          (CreateIndex stubEngine (stubClient Stub.empty DefaultBulk) "orders" "body" true).2.calls
        = 1 ∧
      (CreateIndex stubEngine (stubClient Stub.empty DefaultBulk) "orders" "body" true).1
        = none ∧
      (CreateIndex stubEngine (stubClient Stub.empty DefaultBulk) "orders" "body"
          true).2.Client.indices = ["orders"] ∧
      (CreateIndex stubEngine (stubClient Stub.empty DefaultBulk) "orders" "body"
          true).2.CacheIndices.Load "orders" = none ∧
      ¬ (CreateIndex stubEngine (stubClient Stub.empty DefaultBulk) "orders" "body"
          true).2.CacheIndices.Load "orders" = some true := by
  decide

/-- C5, amended: after a `CreateIndex` call whose create request is sent (the
existence check returned `(false, nil)`) and succeeds, `CreateIndex` returns nil and
the cache is exactly the cache from before the call: a successful creation adds no
entry, so the name is held with value true afterwards only if it already was. -/
theorem CreateIndex_create_success_keeps_cache {σ : Type} (E : Engine σ) (c : Client σ)
    (indexName bodyJson : String) (forceCheck : Bool)
    (hcheck : (IndexExists E c indexName forceCheck).1 = (false, none))
    (hcreate :
      (E.createIndex (IndexExists E c indexName forceCheck).2.Client indexName bodyJson).1
        = none) :
    (CreateIndex E c indexName bodyJson forceCheck).1 = none ∧
      createCalls (CreateIndex E c indexName bodyJson forceCheck).2.calls
        = createCalls c.calls + 1 ∧
      (CreateIndex E c indexName bodyJson forceCheck).2.CacheIndices = c.CacheIndices := by
  have hk : (IndexExists E c indexName forceCheck).2.CacheIndices = c.CacheIndices :=
    IndexExists_cache_of_false E c indexName forceCheck (by rw [hcheck])
  have hn := CreateIndex_createCalls E c indexName bodyJson forceCheck
  rw [if_pos hcheck] at hn
  refine ⟨?_, hn, ?_⟩
  · rw [CreateIndex_of_check_false E c indexName bodyJson forceCheck hcheck, hcreate]
  · rw [CreateIndex_of_check_false E c indexName bodyJson forceCheck hcheck, hcreate]
    simpa using hk

/-- C5, amended, at a concrete input: the cache holds "users" only and "orders" is created. -/
theorem CreateIndex_create_success_keeps_cache_witness :
    (CreateIndex stubEngine (AddIndexCache (stubClient Stub.empty DefaultBulk) ["users"])
        "orders" "body" true).1 = none ∧
      createCalls
          (CreateIndex stubEngine (AddIndexCache (stubClient Stub.empty DefaultBulk) ["users"])
            "orders" "body" true).2.calls = 0 + 1 ∧
      (CreateIndex stubEngine (AddIndexCache (stubClient Stub.empty DefaultBulk) ["users"])
        "orders" "body" true).2.CacheIndices = [("users", true)] :=
  CreateIndex_create_success_keeps_cache stubEngine
    (AddIndexCache (stubClient Stub.empty DefaultBulk) ["users"]) "orders" "body" true
    (by decide) (by decide)

/-- C2, as stated, fails for `forceCheck = false`: on a client with an empty cache over
an engine on which the index has never existed and whose create request would succeed,
two `CreateIndex` calls for the name, one after the other, send no create request at
all, and the index still does not exist on the engine. -/
theorem CreateIndex_twice_unforced_never_creates :
    (stubClient Stub.empty DefaultBulk).CacheIndices.Load "orders" = none ∧
      (stubEngine.indexExists Stub.empty "orders").1 = (false, none) ∧
      (stubEngine.createIndex Stub.empty "orders" "body").1 = none ∧
      createCalls
          (CreateIndex stubEngine
            (CreateIndex stubEngine (stubClient Stub.empty DefaultBulk) "orders" "body" false).2
            "orders" "body" false).2.calls = 0 ∧
      (CreateIndex stubEngine
            (CreateIndex stubEngine (stubClient Stub.empty DefaultBulk) "orders" "body" false).2
            "orders" "body" false).2.Client.indices = [] := by
  decide

/-- C2, amended: two `CreateIndex` calls for the same name, run one after the other on
one client whose cache does not hold the name, over an engine on which the name does
not exist (`hExists0`), whose create request succeeds (`hCreate`) and which reports the
index as existing afterwards (`hExists1`): with `forceCheck = true` in both calls
exactly one create request is sent in total, and both calls return nil; with
`forceCheck = false` in both calls no create request is sent at all. -/
theorem CreateIndex_twice_create_count {σ : Type} (E : Engine σ) (c : Client σ)
    (indexName bodyJson1 bodyJson2 : String)
    (hCache : c.CacheIndices.Load indexName = none)
    (hExists0 : (E.indexExists c.Client indexName).1 = (false, none))
    (hCreate :
      (E.createIndex (E.indexExists c.Client indexName).2 indexName bodyJson1).1 = none)
    (hExists1 :
      (E.indexExists
          (E.createIndex (E.indexExists c.Client indexName).2 indexName bodyJson1).2
          indexName).1 = (true, none)) :
    (createCalls
          (CreateIndex E (CreateIndex E c indexName bodyJson1 true).2 indexName bodyJson2
            true).2.calls = createCalls c.calls + 1 ∧
        (CreateIndex E c indexName bodyJson1 true).1 = none ∧
        (CreateIndex E (CreateIndex E c indexName bodyJson1 true).2 indexName bodyJson2
            true).1 = none) ∧
      createCalls
          (CreateIndex E (CreateIndex E c indexName bodyJson1 false).2 indexName bodyJson2
            false).2.calls = createCalls c.calls := by
  constructor
  · have e0 : (IndexExists E c indexName true).1 = (false, none) := by
      simp [IndexExists, hExists0]
    have s0 : (IndexExists E c indexName true).2.Client = (E.indexExists c.Client indexName).2 := by
      simp only [IndexExists]
      have hb : (E.indexExists c.Client indexName).1.1 = false := by rw [hExists0]
      simp [hb]
    have first := CreateIndex_of_check_false E c indexName bodyJson1 true e0
    rw [s0, hCreate] at first
    simp only [ne_eq, not_true_eq_false, if_false] at first
    have e1 : (IndexExists E (CreateIndex E c indexName bodyJson1 true).2 indexName true).1
        = (true, none) := by
      rw [first]
      simp [IndexExists, hExists1]
    have n1 := CreateIndex_createCalls E c indexName bodyJson1 true
    rw [if_pos e0] at n1
    have n2 := CreateIndex_createCalls E (CreateIndex E c indexName bodyJson1 true).2
      indexName bodyJson2 true
    rw [e1] at n2
    simp only [Prod.mk.injEq, Bool.true_eq_false, false_and, if_false, Nat.add_zero] at n2
    refine ⟨by rw [n2, n1], ?_, ?_⟩
    · rw [first]
    · rw [CreateIndex_of_check_not_false E _ indexName bodyJson2 true (by rw [e1]; simp)]
  · have a0 : IndexExists E c indexName false = ((true, none), c) := by
      simp [IndexExists, hCache]
    have first : CreateIndex E c indexName bodyJson1 false = (none, c) := by
      rw [CreateIndex_of_check_not_false E c indexName bodyJson1 false (by rw [a0]; simp), a0]
    have second : CreateIndex E c indexName bodyJson2 false = (none, c) := by
      rw [CreateIndex_of_check_not_false E c indexName bodyJson2 false (by rw [a0]; simp), a0]
    rw [first, second]

/-- C2, amended, at a concrete input: an empty cache over an engine without the index. -/
theorem CreateIndex_twice_create_count_witness :
    (createCalls
          (CreateIndex stubEngine
            (CreateIndex stubEngine (stubClient Stub.empty DefaultBulk) "orders" "a" true).2
            "orders" "b" true).2.calls = 0 + 1 ∧
        (CreateIndex stubEngine (stubClient Stub.empty DefaultBulk) "orders" "a" true).1
          = none ∧
        (CreateIndex stubEngine
            (CreateIndex stubEngine (stubClient Stub.empty DefaultBulk) "orders" "a" true).2
            "orders" "b" true).1 = none) ∧
      createCalls
          (CreateIndex stubEngine
            (CreateIndex stubEngine (stubClient Stub.empty DefaultBulk) "orders" "a" false).2
            "orders" "b" false).2.calls = 0 :=
  CreateIndex_twice_create_count stubEngine (stubClient Stub.empty DefaultBulk)
    "orders" "a" "b" (by decide) (by decide) (by decide) (by decide)

/-! ## Bulk configuration clamping -/

theorem newClient.defaultName_Bulk {σ : Type} (c : Client σ) :
    (newClient.defaultName c).Bulk.Workers = c.Bulk.Workers ∧
      (newClient.defaultName c).Bulk.RequestSize = c.Bulk.RequestSize ∧
      (newClient.defaultName c).Bulk.ActionSize = c.Bulk.ActionSize ∧
      (newClient.defaultName c).Bulk.FlushInterval = c.Bulk.FlushInterval := by
  unfold newClient.defaultName
  split <;> exact ⟨rfl, rfl, rfl, rfl⟩

theorem newClient.clampWorkers_Bulk {σ : Type} (c : Client σ) :
    (newClient.clampWorkers c).Bulk.Workers
        = (if c.Bulk.Workers ≤ 0 then 1 else c.Bulk.Workers) ∧
      (newClient.clampWorkers c).Bulk.RequestSize = c.Bulk.RequestSize ∧
      (newClient.clampWorkers c).Bulk.ActionSize = c.Bulk.ActionSize ∧
      (newClient.clampWorkers c).Bulk.FlushInterval = c.Bulk.FlushInterval := by
  unfold newClient.clampWorkers
  split <;> exact ⟨rfl, rfl, rfl, rfl⟩

theorem newClient.clampRequestSize_Bulk {σ : Type} (c : Client σ) :
    (newClient.clampRequestSize c).Bulk.Workers = c.Bulk.Workers ∧
      (newClient.clampRequestSize c).Bulk.RequestSize
        = (if c.Bulk.RequestSize > 100 * 1024 * 1024 then 100 * 1024 * 1024
            else c.Bulk.RequestSize) ∧
      (newClient.clampRequestSize c).Bulk.ActionSize = c.Bulk.ActionSize ∧
      (newClient.clampRequestSize c).Bulk.FlushInterval = c.Bulk.FlushInterval := by
  unfold newClient.clampRequestSize
  split <;> exact ⟨rfl, rfl, rfl, rfl⟩

theorem newClient.clampActionSize_Bulk {σ : Type} (c : Client σ) :
    (newClient.clampActionSize c).Bulk.Workers = c.Bulk.Workers ∧
      (newClient.clampActionSize c).Bulk.RequestSize = c.Bulk.RequestSize ∧
      (newClient.clampActionSize c).Bulk.ActionSize
        = (if c.Bulk.ActionSize ≥ 10000 then 10000 else c.Bulk.ActionSize) ∧
      (newClient.clampActionSize c).Bulk.FlushInterval = c.Bulk.FlushInterval := by
  unfold newClient.clampActionSize
  split <;> exact ⟨rfl, rfl, rfl, rfl⟩

theorem newClient.clampFlushInterval_Bulk {σ : Type} (c : Client σ) :
    (newClient.clampFlushInterval c).Bulk.Workers = c.Bulk.Workers ∧
      (newClient.clampFlushInterval c).Bulk.RequestSize = c.Bulk.RequestSize ∧
      (newClient.clampFlushInterval c).Bulk.ActionSize = c.Bulk.ActionSize ∧
      (newClient.clampFlushInterval c).Bulk.FlushInterval
        = (if c.Bulk.FlushInterval ≥ 60 then Second * 60 else c.Bulk.FlushInterval) := by
  unfold newClient.clampFlushInterval
  split <;> exact ⟨rfl, rfl, rfl, rfl⟩

theorem newClient.defaultAfterFunc_Bulk {σ : Type} (c : Client σ) :
    (newClient.defaultAfterFunc c).Bulk.Workers = c.Bulk.Workers ∧
      (newClient.defaultAfterFunc c).Bulk.RequestSize = c.Bulk.RequestSize ∧
      (newClient.defaultAfterFunc c).Bulk.ActionSize = c.Bulk.ActionSize ∧
      (newClient.defaultAfterFunc c).Bulk.FlushInterval = c.Bulk.FlushInterval := by
  unfold newClient.defaultAfterFunc
  split <;> exact ⟨rfl, rfl, rfl, rfl⟩

theorem newClient.defaultCtx_Bulk {σ : Type} (c : Client σ) :
    (newClient.defaultCtx c).Bulk.Workers = c.Bulk.Workers ∧
      (newClient.defaultCtx c).Bulk.RequestSize = c.Bulk.RequestSize ∧
      (newClient.defaultCtx c).Bulk.ActionSize = c.Bulk.ActionSize ∧
      (newClient.defaultCtx c).Bulk.FlushInterval = c.Bulk.FlushInterval := by
  unfold newClient.defaultCtx
  split <;> exact ⟨rfl, rfl, rfl, rfl⟩

theorem newClient.startBulkProcessor_Bulk {σ : Type} (E : Engine σ) (c : Client σ) :
    (newClient.startBulkProcessor E c).Bulk = c.Bulk := by
  unfold newClient.startBulkProcessor
  dsimp only
  split <;> rfl

/-- The four numeric fields of the bulk configuration after a `newClient` call whose
handle construction succeeded, in terms of the fields before the call. -/
theorem newClient_ok_fields {σ : Type} (E : Engine σ) (c : Client σ) (client : σ) :
    (newClient E c (Except.ok client)).2.Bulk.Workers
        = (if c.Bulk.Workers ≤ 0 then 1 else c.Bulk.Workers) ∧
      (newClient E c (Except.ok client)).2.Bulk.RequestSize
        = (if c.Bulk.RequestSize > 100 * 1024 * 1024 then 100 * 1024 * 1024
            else c.Bulk.RequestSize) ∧
      (newClient E c (Except.ok client)).2.Bulk.ActionSize
        = (if c.Bulk.ActionSize ≥ 10000 then 10000 else c.Bulk.ActionSize) ∧
      (newClient E c (Except.ok client)).2.Bulk.FlushInterval
        = (if c.Bulk.FlushInterval ≥ 60 then Second * 60 else c.Bulk.FlushInterval) := by
  show (newClient.startBulkProcessor E _).Bulk.Workers = _ ∧
    (newClient.startBulkProcessor E _).Bulk.RequestSize = _ ∧
    (newClient.startBulkProcessor E _).Bulk.ActionSize = _ ∧
    (newClient.startBulkProcessor E _).Bulk.FlushInterval = _
  rw [newClient.startBulkProcessor_Bulk]
  obtain ⟨a1, a2, a3, a4⟩ := newClient.defaultName_Bulk { c with Client := client }
  obtain ⟨b1, b2, b3, b4⟩ :=
    newClient.clampWorkers_Bulk (newClient.defaultName { c with Client := client })
  obtain ⟨c1, c2, c3, c4⟩ := newClient.clampRequestSize_Bulk
    (newClient.clampWorkers (newClient.defaultName { c with Client := client }))
  obtain ⟨d1, d2, d3, d4⟩ := newClient.clampActionSize_Bulk
    (newClient.clampRequestSize
      (newClient.clampWorkers (newClient.defaultName { c with Client := client })))
  obtain ⟨e1, e2, e3, e4⟩ := newClient.clampFlushInterval_Bulk
    (newClient.clampActionSize (newClient.clampRequestSize
      (newClient.clampWorkers (newClient.defaultName { c with Client := client }))))
  obtain ⟨f1, f2, f3, f4⟩ := newClient.defaultAfterFunc_Bulk
    (newClient.clampFlushInterval (newClient.clampActionSize (newClient.clampRequestSize
      (newClient.clampWorkers (newClient.defaultName { c with Client := client })))))
  obtain ⟨g1, g2, g3, g4⟩ := newClient.defaultCtx_Bulk
    (newClient.defaultAfterFunc (newClient.clampFlushInterval (newClient.clampActionSize
      (newClient.clampRequestSize
        (newClient.clampWorkers (newClient.defaultName { c with Client := client }))))))
  refine ⟨?_, ?_, ?_, ?_⟩
  · rw [g1, f1, e1, d1, c1, b1, a1]
  · rw [g2, f2, e2, d2, c2, b2, a2]
  · rw [g3, f3, e3, d3, c3, b3, a3]
  · rw [g4, f4, e4, d4, c4, b4, a4]

/-- C6: `newClient` clamps instead of rejecting.  For every bulk configuration
(arbitrary integers), when the engine handle is built `newClient` returns nil and
afterwards `Workers >= 1`, `RequestSize <= 104857600` (100 MiB), `ActionSize <= 10000`
and `FlushInterval <= 60 s`; a value above its maximum becomes exactly the maximum
and workers below 1 become exactly 1. -/
theorem newClient_clamps_bulk {σ : Type} (E : Engine σ) (c : Client σ) (client : σ) :
    (newClient E c (Except.ok client)).1 = none ∧
      (1 ≤ (newClient E c (Except.ok client)).2.Bulk.Workers ∧
        (newClient E c (Except.ok client)).2.Bulk.RequestSize ≤ 104857600 ∧
        (newClient E c (Except.ok client)).2.Bulk.ActionSize ≤ 10000 ∧
        (newClient E c (Except.ok client)).2.Bulk.FlushInterval ≤ 60 * Second) ∧
      (c.Bulk.Workers < 1 → (newClient E c (Except.ok client)).2.Bulk.Workers = 1) ∧
      (104857600 < c.Bulk.RequestSize →
        (newClient E c (Except.ok client)).2.Bulk.RequestSize = 104857600) ∧
      (10000 < c.Bulk.ActionSize →
        (newClient E c (Except.ok client)).2.Bulk.ActionSize = 10000) ∧
      (60 * Second < c.Bulk.FlushInterval →
        (newClient E c (Except.ok client)).2.Bulk.FlushInterval = 60 * Second) := by
  obtain ⟨hw, hr, ha, hf⟩ := newClient_ok_fields E c client
  rw [hw, hr, ha, hf]
  unfold Second
  refine ⟨rfl, ⟨?_, ?_, ?_, ?_⟩, ?_, ?_, ?_, ?_⟩
  · split <;> omega
  · split <;> omega
  · split <;> omega
  · split <;> omega
  · intro h; rw [if_pos (by omega)]
  · intro h; rw [if_pos (by omega)]; norm_num
  · intro h; rw [if_pos (by omega)]
  · intro h; rw [if_pos (by omega)]; norm_num

/-- C7 at the failing input: a bulk configuration that is the default one except for
a flush interval of one second (`time.Second`, below 60 s).  `newClient` prints the
flush-interval diagnostic and replaces the interval by 60 s, because the guard
compares the duration with 60 nanoseconds; the default interval of `DefaultBulk`,
one nanosecond, is kept. -/
theorem newClient_replaces_one_second_interval :
    ({ DefaultBulk with FlushInterval := Second } : Bulk).FlushInterval < 60 * Second ∧
      (newClient stubEngine (stubClient Stub.empty { DefaultBulk with FlushInterval := Second })
          (Except.ok Stub.empty)).2.Bulk.FlushInterval = 60 * Second ∧
      (newClient stubEngine (stubClient Stub.empty { DefaultBulk with FlushInterval := Second })
          (Except.ok Stub.empty)).2.logs = [LogLine.flushIntervalClamped] ∧
      (newClient stubEngine (stubClient Stub.empty DefaultBulk)
          (Except.ok Stub.empty)).2.Bulk.FlushInterval = 1 := by
  decide

/-! ## Scroll iteration -/

theorem scrollDoCalls_append (xs ys : List Call) :
    scrollDoCalls (xs ++ ys) = scrollDoCalls xs + scrollDoCalls ys := by
  simp [scrollDoCalls, List.filter_append]

theorem scrollClearCalls_append (xs ys : List Call) :
    scrollClearCalls (xs ++ ys) = scrollClearCalls xs + scrollClearCalls ys := by
  simp [scrollClearCalls, List.filter_append]

theorem scrollDoCalls_replicate (n : Nat) (req : ScrollRequest) :
    scrollDoCalls (List.replicate n (Call.scrollDo req)) = n := by
  induction n with
  | zero => rfl
  | succ n ih =>
    rw [List.replicate_succ, ← List.singleton_append, scrollDoCalls_append, ih]
    simp [scrollDoCalls, Nat.add_comm]

theorem scrollClearCalls_replicate (n : Nat) (req : ScrollRequest) :
    scrollClearCalls (List.replicate n (Call.scrollDo req)) = 0 := by
  induction n with
  | zero => rfl
  | succ n ih =>
    rw [List.replicate_succ, ← List.singleton_append, scrollClearCalls_append, ih]
    simp [scrollClearCalls]

theorem fetches_succ {σ : Type} (E : Engine σ) (req : ScrollRequest) (n : Nat) (s : σ) :
    fetches E req (n + 1) s
      = (E.scrollDo s req).1 :: fetches E req n (E.scrollDo s req).2 := rfl

/-- One iteration of the scroll loop on a page that has hits: the callback receives
the page and the loop goes on from the engine state the fetch left. -/
theorem scrollLoop_step_page {σ κ : Type} (E : Engine σ) (req : ScrollRequest)
    (data rs : String) (thr : Int) (callback : κ → SearchResult → Option Err → κ)
    (fuel : Nat) (st : ScrollRun σ κ) (p : SearchResult) (err : Option Err)
    (hits : SearchHits)
    (hr : (E.scrollDo st.client.Client req).1 = (some p, err)) (herr : err ≠ some Err.EOF)
    (hp : p.Hits = some hits) (hh : hits.Hits ≠ []) :
    ∃ c1 : Client σ,
      scrollLoop E req data rs thr callback (fuel + 1) st
        = scrollLoop E req data rs thr callback fuel
            { client := c1
              caller := callback st.caller p err
              fetched := st.fetched ++ [(some p, err)]
              callbacks := st.callbacks ++ [(p, err)]
              outcome := st.outcome } ∧
      c1.Client = (E.scrollDo st.client.Client req).2 ∧
      c1.calls = st.client.calls ++ [Call.scrollDo req] ∧
      slowLines c1.logs
        = slowLines st.client.logs + (if slowCondition thr (some p) then 1 else 0) := by
  have h1 : (E.scrollDo st.client.Client req).1.1 = some p := by rw [hr]
  have h2 : (E.scrollDo st.client.Client req).1.2 = err := by rw [hr]
  have hlen : ¬ hits.Hits.length = 0 := fun e => hh (List.length_eq_zero.mp e)
  rw [scrollLoop]
  simp only [h1, h2, hp, hlen, herr, if_false]
  cases hs : slowCondition thr (some p)
  · simp only [Bool.false_eq_true, if_false]
    refine ⟨{ st.client with
                Client := (E.scrollDo st.client.Client req).2
                calls := st.client.calls ++ [Call.scrollDo req] }, ?_, rfl, rfl, rfl⟩
    rw [hr]
  · simp only [if_true]
    refine ⟨{ st.client with
                Client := (E.scrollDo st.client.Client req).2
                calls := st.client.calls ++ [Call.scrollDo req]
                logs := st.client.logs ++ [LogLine.slowQuery data rs] }, ?_, rfl, rfl, ?_⟩
    · rw [hr]
    · simp [slowLines, List.filter_append]

/-- One iteration of the scroll loop on a page that has hits, with the lines it may
add to the log: none, or the slow-query line. -/
theorem scrollLoop_step_page_logs {σ κ : Type} (E : Engine σ) (req : ScrollRequest)
    (data rs : String) (thr : Int) (callback : κ → SearchResult → Option Err → κ)
    (fuel : Nat) (st : ScrollRun σ κ) (p : SearchResult) (err : Option Err)
    (hits : SearchHits)
    (hr : (E.scrollDo st.client.Client req).1 = (some p, err)) (herr : err ≠ some Err.EOF)
    (hp : p.Hits = some hits) (hh : hits.Hits ≠ []) :
    ∃ c1 : Client σ,
      scrollLoop E req data rs thr callback (fuel + 1) st
        = scrollLoop E req data rs thr callback fuel
            { client := c1
              caller := callback st.caller p err
              fetched := st.fetched ++ [(some p, err)]
              callbacks := st.callbacks ++ [(p, err)]
              outcome := st.outcome } ∧
      c1.Client = (E.scrollDo st.client.Client req).2 ∧
      c1.calls = st.client.calls ++ [Call.scrollDo req] ∧
      ∀ l ∈ c1.logs, l ∈ st.client.logs ∨ l = LogLine.slowQuery data rs := by
  have h1 : (E.scrollDo st.client.Client req).1.1 = some p := by rw [hr]
  have h2 : (E.scrollDo st.client.Client req).1.2 = err := by rw [hr]
  have hlen : ¬ hits.Hits.length = 0 := fun e => hh (List.length_eq_zero.mp e)
  rw [scrollLoop]
  simp only [h1, h2, hp, hlen, herr, if_false]
  cases hs : slowCondition thr (some p)
  · simp only [Bool.false_eq_true, if_false]
    refine ⟨{ st.client with
                Client := (E.scrollDo st.client.Client req).2
                calls := st.client.calls ++ [Call.scrollDo req] }, ?_, rfl, rfl, ?_⟩
    · rw [hr]
    · intro l hl
      exact Or.inl hl
  · simp only [if_true]
    refine ⟨{ st.client with
                Client := (E.scrollDo st.client.Client req).2
                calls := st.client.calls ++ [Call.scrollDo req]
                logs := st.client.logs ++ [LogLine.slowQuery data rs] }, ?_, rfl, rfl, ?_⟩
    · rw [hr]
    · intro l hl
      rcases List.mem_append.mp hl with h | h
      · exact Or.inl h
      · exact Or.inr (List.mem_singleton.mp h)

/-- The loop over a script of pages with hits closed by a last page that ends it: the
last page arrives with the end-of-stream signal, or its hit container holds zero hits.
Every page of the script reaches the callback, in order, the last page does not, and
the only lines the loop may print are slow-query lines. -/
theorem scrollLoop_pages {σ κ : Type} (E : Engine σ) (req : ScrollRequest)
    (data rs : String) (thr : Int) (callback : κ → SearchResult → Option Err → κ)
    (last : SearchResult) (lastErr : Option Err)
    (hLast : lastErr = some Err.EOF ∨ last.Hits = some { Hits := [] }) :
    ∀ (pages : List SearchResult) (fuel : Nat) (st : ScrollRun σ κ),
      pages.length + 1 ≤ fuel →
      fetches E req (pages.length + 1) st.client.Client
        = pages.map (fun p => (some p, none)) ++ [(some last, lastErr)] →
      (∀ p ∈ pages, ∃ hits, p.Hits = some hits ∧ hits.Hits ≠ []) →
      ∃ out, scrollLoop E req data rs thr callback fuel st = some out ∧
        out.callbacks = st.callbacks ++ pages.map (fun p => (p, none)) ∧
        out.caller = pages.foldl (fun k p => callback k p none) st.caller ∧
        out.fetched
          = st.fetched ++ (pages.map (fun p => (some p, none)) ++ [(some last, lastErr)]) ∧
        out.client.calls
          = st.client.calls ++ List.replicate (pages.length + 1) (Call.scrollDo req) ∧
        out.outcome = st.outcome ∧
        ∀ l ∈ out.client.logs, l ∈ st.client.logs ∨ l = LogLine.slowQuery data rs := by
  intro pages
  induction pages with
  | nil =>
    intro fuel st hfuel hf _
    obtain ⟨f, rfl⟩ : ∃ f, fuel = f + 1 := ⟨fuel - 1, by simp at hfuel; omega⟩
    simp only [List.length_nil, Nat.zero_add, fetches, List.map_nil, List.nil_append,
      List.cons.injEq, and_true] at hf
    have h1 : (E.scrollDo st.client.Client req).1.1 = some last := by rw [hf]
    have h2 : (E.scrollDo st.client.Client req).1.2 = lastErr := by rw [hf]
    rw [scrollLoop]
    by_cases he : lastErr = some Err.EOF
    · simp only [h1, h2, he, if_true]
      refine ⟨_, rfl, ?_, rfl, ?_, ?_, rfl, ?_⟩
      · simp
      · simp [hf, he]
      · simp
      · intro l hl
        exact Or.inl hl
    · have hH : last.Hits = some { Hits := [] } := hLast.resolve_left he
      simp only [h1, h2, he, if_false, hH, List.length_nil, if_true]
      cases hs : slowCondition thr (some last)
      · simp only [Bool.false_eq_true, if_false]
        refine ⟨_, rfl, ?_, rfl, ?_, ?_, rfl, ?_⟩
        · simp
        · simp [hf]
        · simp
        · intro l hl
          exact Or.inl hl
      · simp only [if_true]
        refine ⟨_, rfl, ?_, rfl, ?_, ?_, rfl, ?_⟩
        · simp
        · simp [hf]
        · simp
        · intro l hl
          rcases List.mem_append.mp hl with h | h
          · exact Or.inl h
          · exact Or.inr (List.mem_singleton.mp h)
  | cons p ps ih =>
    intro fuel st hfuel hf hne
    obtain ⟨f, rfl⟩ : ∃ f, fuel = f + 1 := ⟨fuel - 1, by simp at hfuel; omega⟩
    rw [List.length_cons, fetches_succ, List.map_cons, List.cons_append,
      List.cons.injEq] at hf
    obtain ⟨hr, hrest⟩ := hf
    obtain ⟨hits, hp, hh⟩ := hne p (List.mem_cons_self _ _)
    obtain ⟨c1, hstep, hC, hcalls, hlogs⟩ :=
      scrollLoop_step_page_logs E req data rs thr callback f st p none hits hr (by simp) hp hh
    rw [hstep]
    obtain ⟨out, ho, hc, hk, hfe, hcl, hout, hl⟩ :=
      ih f
        { client := c1
          caller := callback st.caller p none
          fetched := st.fetched ++ [(some p, none)]
          callbacks := st.callbacks ++ [(p, none)]
          outcome := st.outcome }
        (by simp at hfuel ⊢; omega) (by rw [hC]; exact hrest)
        (fun q hq => hne q (List.mem_cons_of_mem _ hq))
    refine ⟨out, ho, ?_, ?_, ?_, ?_, ?_, ?_⟩
    · simpa using hc
    · simpa using hk
    · simpa using hfe
    · rw [hcl, hcalls]
      simp [List.replicate_succ]
    · simpa using hout
    · intro l hlm
      rcases hl l hlm with h | h
      · exact hlogs l h
      · exact Or.inr h

/-- The run of `ScrollQuery` over a script of pages with hits closed by a last page
that ends the loop, as `scrollLoop_pages` describes it, with the cursor cleared after
the loop. -/
theorem ScrollQuery_pages {σ κ : Type} (E : Engine σ) (c : Client σ)
    (index : List String) (typeStr query : String) (size : Int) (routes : List String)
    (callback : κ → SearchResult → Option Err → κ) (caller : κ)
    (options : List (Option QueryOption)) (pages : List SearchResult) (last : SearchResult)
    (lastErr : Option Err) (fuel : Nat) (hFuel : pages.length + 1 ≤ fuel)
    (hFetch :
      fetches E (ScrollQuery.scrollService index query size routes (applyOptions options))
          (pages.length + 1) c.Client
        = pages.map (fun p => (some p, none)) ++ [(some last, lastErr)])
    (hPages : ∀ p ∈ pages, ∃ hits, p.Hits = some hits ∧ hits.Hits ≠ [])
    (hLast : lastErr = some Err.EOF ∨ last.Hits = some { Hits := [] }) :
    ∃ run, ScrollQuery E c index typeStr query size routes callback caller options fuel
          = some run ∧
      run.outcome = Outcome.returned ∧
      run.callbacks = pages.map (fun p => (p, none)) ∧
      run.caller = pages.foldl (fun k p => callback k p none) caller ∧
      run.fetched = pages.map (fun p => (some p, none)) ++ [(some last, lastErr)] ∧
      run.client.calls
        = c.calls ++
            List.replicate (pages.length + 1)
              (Call.scrollDo
                (ScrollQuery.scrollService index query size routes (applyOptions options))) ++
            [Call.scrollClear
              (ScrollQuery.scrollService index query size routes (applyOptions options))] ∧
      ∀ l ∈ run.client.logs,
        l ∈ c.logs ∨
          l = LogLine.dsl (E.marshal (ScrollQuery.searchSource query (applyOptions options)))
                (String.intercalate "," routes) ∨
          l = LogLine.slowQuery
                (E.marshal (ScrollQuery.searchSource query (applyOptions options)))
                (String.intercalate "," routes) := by
  obtain ⟨out, ho, hc, hk, hfe, hcalls, hout, hlogs⟩ :=
    scrollLoop_pages E
      (ScrollQuery.scrollService index query size routes (applyOptions options))
      (E.marshal (ScrollQuery.searchSource query (applyOptions options)))
      (String.intercalate "," routes) (applyOptions options).SlowQueryMillisecond callback
      last lastErr hLast pages fuel
      { client :=
          if c.DebugMode ∨ c.QueryLogEnable ∨ (applyOptions options).EnableDSL then
            { c with
                logs := c.logs ++
                  [LogLine.dsl (E.marshal (ScrollQuery.searchSource query (applyOptions options)))
                    (String.intercalate "," routes)] }
          else c
        caller := caller
        fetched := []
        callbacks := []
        outcome := Outcome.returned }
      hFuel (by dsimp only; split <;> exact hFetch) hPages
  have hcalls2 : out.client.calls
      = c.calls ++ List.replicate (pages.length + 1)
          (Call.scrollDo
            (ScrollQuery.scrollService index query size routes (applyOptions options))) := by
    rw [hcalls]
    dsimp only
    split <;> rfl
  refine ⟨{ out with
              client :=
                { out.client with
                    Client := E.scrollClear out.client.Client
                      (ScrollQuery.scrollService index query size routes (applyOptions options))
                    calls := out.client.calls ++
                      [Call.scrollClear
                        (ScrollQuery.scrollService index query size routes
                          (applyOptions options))] } }, ?_, ?_, ?_, ?_, ?_, ?_, ?_⟩
  · unfold ScrollQuery
    dsimp only
    rw [ho]
    rfl
  · exact hout
  · simpa using hc
  · exact hk
  · simpa using hfe
  · show out.client.calls ++ _ = _
    rw [hcalls2]
  · intro l hl
    rcases hlogs l hl with h | h
    · dsimp only at h
      split at h
      · rcases List.mem_append.mp h with h1 | h1
        · exact Or.inl h1
        · exact Or.inr (Or.inl (List.mem_singleton.mp h1))
      · exact Or.inl h
    · exact Or.inr (Or.inr h)

/-- C8: page accounting of `ScrollQuery`.  Let the first `N` fetches (`N` is
`pages.length + 1`) succeed, the first `N - 1` returning the pages of `pages`, each
with at least one hit, and the `N`-th returning a page with zero hits: a page whose
hit container is empty, with whatever error value `lastErr` comes with it (nil, or the
end-of-stream signal `io.EOF` that the elastic client attaches to an empty page), or a
page without hit container that comes with `io.EOF`.  Then, for every callback and
every caller state, `ScrollQuery` returns (any fuel of at least `N` suffices); the
callback was invoked exactly `N - 1` times, once per non-empty page, in fetch order,
with that page; exactly `N` fetches were sent, none after the empty page; and the
cursor was cleared exactly once, as the last request before returning. -/
theorem ScrollQuery_page_accounting {σ κ : Type} (E : Engine σ) (c : Client σ)
    (index : List String) (typeStr query : String) (size : Int) (routes : List String)
    (callback : κ → SearchResult → Option Err → κ) (caller : κ)
    (options : List (Option QueryOption)) (pages : List SearchResult) (last : SearchResult)
    (lastErr : Option Err) (fuel : Nat) (hFuel : pages.length + 1 ≤ fuel)
    (hFetch :
      fetches E (ScrollQuery.scrollService index query size routes (applyOptions options))
          (pages.length + 1) c.Client
        = pages.map (fun p => (some p, none)) ++ [(some last, lastErr)])
    (hPages : ∀ p ∈ pages, ∃ hits, p.Hits = some hits ∧ hits.Hits ≠ [])
    (hLast :
      (∃ hits, last.Hits = some hits ∧ hits.Hits = []) ∨
        (last.Hits = none ∧ lastErr = some Err.EOF)) :
    ∃ run, ScrollQuery E c index typeStr query size routes callback caller options fuel
          = some run ∧
      run.outcome = Outcome.returned ∧
      run.callbacks = pages.map (fun p => (p, none)) ∧
      run.callbacks.length = pages.length ∧
      run.caller = pages.foldl (fun k p => callback k p none) caller ∧
      run.fetched = pages.map (fun p => (some p, none)) ++ [(some last, lastErr)] ∧
      run.client.calls
        = c.calls ++
            List.replicate (pages.length + 1)
              (Call.scrollDo
                (ScrollQuery.scrollService index query size routes (applyOptions options))) ++
            [Call.scrollClear
              (ScrollQuery.scrollService index query size routes (applyOptions options))] ∧
      scrollDoCalls run.client.calls = scrollDoCalls c.calls + (pages.length + 1) ∧
      scrollClearCalls run.client.calls = scrollClearCalls c.calls + 1 := by
  have hL : lastErr = some Err.EOF ∨ last.Hits = some { Hits := [] } := by
    rcases hLast with ⟨hits, h1, h2⟩ | ⟨_, h2⟩
    · right
      rw [h1]
      cases hits
      simp only at h2
      rw [h2]
    · exact Or.inl h2
  obtain ⟨run, hrun, ho, hc, hk, hfe, hcalls, _⟩ :=
    ScrollQuery_pages E c index typeStr query size routes callback caller options pages last
      lastErr fuel hFuel hFetch hPages hL
  refine ⟨run, hrun, ho, hc, ?_, hk, hfe, hcalls, ?_, ?_⟩
  · rw [hc]; simp
  · rw [hcalls, scrollDoCalls_append, scrollDoCalls_append, scrollDoCalls_replicate]
    rfl
  · rw [hcalls, scrollClearCalls_append, scrollClearCalls_append, scrollClearCalls_replicate]
    rfl

/-- C8 at a concrete input: two pages with hits, then an empty page that arrives with
the end-of-stream signal (`N = 3`). -/
theorem ScrollQuery_page_accounting_witness :
    (ScrollQuery stubEngine (stubClient sampleScroll DefaultBulk) ["orders"] "" "match_all"
          100 [] collectIds [] [] 10).map
        (fun run => (run.outcome, run.caller, run.callbacks.length,
          scrollDoCalls run.client.calls, scrollClearCalls run.client.calls))
      = some (Outcome.returned, ["a", "b", "c"], 2, 3, 1) := by
  obtain ⟨run, h, ho, _, hn, hk, _, _, hd, hc⟩ :=
    ScrollQuery_page_accounting stubEngine (stubClient sampleScroll DefaultBulk) ["orders"] ""
      "match_all" 100 [] collectIds [] [] [samplePage 5 ["a", "b"], samplePage 7 ["c"]]
      (samplePage 1 []) (some Err.EOF) 10 (by decide) (by decide)
      (by
        intro p hp
        simp only [List.mem_cons, List.mem_singleton, List.not_mem_nil, or_false] at hp
        rcases hp with rfl | rfl
        · exact ⟨_, rfl, by simp⟩
        · exact ⟨_, rfl, by simp⟩)
      (Or.inl ⟨_, rfl, rfl⟩)
  rw [h, Option.map_some', ho, hk, hn, hd, hc]
  rfl

/-- C9, as stated, fails on "logs the condition": the first fetch returns a non-nil
result whose `Hits` container is nil, together with the end-of-stream signal, which
is how the elastic client returns such a result.  `ScrollQuery` returns normally,
does not invoke the callback and clears the cursor once, but prints nothing: the
loop is left at the end-of-stream test, before the nil-container diagnostic. -/
theorem ScrollQuery_nil_hits_not_logged :
    (ScrollQuery stubEngine (stubClient sampleNilHits DefaultBulk) ["orders"] "" "match_all"
          100 [] collectIds [] [] 10).map
        (fun run => (run.outcome, run.callbacks, run.fetched, run.client.logs,
          scrollDoCalls run.client.calls, scrollClearCalls run.client.calls))
      = some (Outcome.returned, [],
          [(some { TookInMillis := 3, Hits := none }, some Err.EOF)], [], 1, 1) := by
  rfl

/-- C9, amended: whenever a fetch returns a non-nil result whose `Hits` container is
nil together with the end-of-stream signal `io.EOF`, after any number of pages with
hits, `ScrollQuery` does not invoke the callback for that result and returns normally
(any fuel above the number of earlier pages suffices), with the cursor cleared exactly
once as the last request.  The condition is not logged: every line of the log is a line
from before the call, the DSL line or a slow-query line, so the nil-container
diagnostic is in the log only if it was there before. -/
theorem ScrollQuery_nil_hits_end_of_stream {σ κ : Type} (E : Engine σ) (c : Client σ)
    (index : List String) (typeStr query : String) (size : Int) (routes : List String)
    (callback : κ → SearchResult → Option Err → κ) (caller : κ)
    (options : List (Option QueryOption)) (pages : List SearchResult) (last : SearchResult)
    (fuel : Nat) (hFuel : pages.length + 1 ≤ fuel)
    (hFetch :
      fetches E (ScrollQuery.scrollService index query size routes (applyOptions options))
          (pages.length + 1) c.Client
        = pages.map (fun p => (some p, none)) ++ [(some last, some Err.EOF)])
    (hPages : ∀ p ∈ pages, ∃ hits, p.Hits = some hits ∧ hits.Hits ≠ [])
    (hLast : last.Hits = none) :
    ∃ run, ScrollQuery E c index typeStr query size routes callback caller options fuel
          = some run ∧
      run.outcome = Outcome.returned ∧
      run.callbacks = pages.map (fun p => (p, none)) ∧
      (∀ err, (last, err) ∉ run.callbacks) ∧
      run.caller = pages.foldl (fun k p => callback k p none) caller ∧
      run.client.calls
        = c.calls ++
            List.replicate (pages.length + 1)
              (Call.scrollDo
                (ScrollQuery.scrollService index query size routes (applyOptions options))) ++
            [Call.scrollClear
              (ScrollQuery.scrollService index query size routes (applyOptions options))] ∧
      scrollClearCalls run.client.calls = scrollClearCalls c.calls + 1 ∧
      (∀ l ∈ run.client.logs,
        l ∈ c.logs ∨
          l = LogLine.dsl (E.marshal (ScrollQuery.searchSource query (applyOptions options)))
                (String.intercalate "," routes) ∨
          l = LogLine.slowQuery
                (E.marshal (ScrollQuery.searchSource query (applyOptions options)))
                (String.intercalate "," routes)) ∧
      (LogLine.hitsNil ∈ run.client.logs → LogLine.hitsNil ∈ c.logs) := by
  obtain ⟨run, hrun, ho, hc, hk, _, hcalls, hlogs⟩ :=
    ScrollQuery_pages E c index typeStr query size routes callback caller options pages last
      (some Err.EOF) fuel hFuel hFetch hPages (Or.inl rfl)
  refine ⟨run, hrun, ho, hc, ?_, hk, hcalls, ?_, hlogs, ?_⟩
  · intro err hmem
    rw [hc] at hmem
    obtain ⟨p, hp, hpe⟩ := List.mem_map.mp hmem
    obtain ⟨hits, hh, _⟩ := hPages p hp
    have : p = last := congrArg Prod.fst hpe
    rw [this, hLast] at hh
    cases hh
  · rw [hcalls, scrollClearCalls_append, scrollClearCalls_append, scrollClearCalls_replicate]
    rfl
  · intro hmem
    rcases hlogs _ hmem with h | h | h
    · exact h
    · cases h
    · cases h

/-- C9, amended, at a concrete input: the first answer of the cursor is a result
without hit container together with the end-of-stream signal. -/
theorem ScrollQuery_nil_hits_end_of_stream_witness :
    (ScrollQuery stubEngine (stubClient sampleNilHits DefaultBulk) ["orders"] "" "match_all"
          100 [] collectIds [] [] 10).map
        (fun run => (run.outcome, run.callbacks, scrollClearCalls run.client.calls))
      = some (Outcome.returned, [], 1) := by
  obtain ⟨run, h, ho, hcb, _, _, _, hc, _⟩ :=
    ScrollQuery_nil_hits_end_of_stream stubEngine (stubClient sampleNilHits DefaultBulk)
      ["orders"] "" "match_all" 100 [] collectIds [] [] []
      { TookInMillis := 3, Hits := none } 10 (by decide) (by decide)
      (by intro p hp; cases hp) rfl
  rw [h, Option.map_some', ho, hcb, hc]
  rfl

/-! ## Slow-query logging -/

theorem slowLines_append (xs ys : List LogLine) :
    slowLines (xs ++ ys) = slowLines xs + slowLines ys := by
  simp [slowLines, List.filter_append]

theorem slowCondition_eq_slowRule (threshold : Int) (res : Option SearchResult) :
    slowCondition threshold res = slowRule threshold res := by
  cases res <;> simp [slowCondition, slowRule]

theorem slowRule_iff (threshold : Int) (res : Option SearchResult) :
    slowRule threshold res = true ↔
      ∃ r, res = some r ∧ 0 < threshold ∧ threshold ≤ r.TookInMillis := by
  cases res <;> simp [slowRule]

theorem slowPages_append_one (threshold : Int) (xs : List Response) (res : Option SearchResult)
    (err : Option Err) :
    slowPages threshold (xs ++ [(res, err)])
      = slowPages threshold xs +
          (if err ≠ some Err.EOF ∧ slowRule threshold res = true then 1 else 0) := by
  unfold slowPages
  rw [List.filter_append, List.length_append]
  congr 1
  by_cases h : err ≠ some Err.EOF ∧ slowRule threshold res = true
  · rw [if_pos h, List.filter_cons_of_pos (by simp [h.1, h.2])]
    rfl
  · rw [if_neg h, List.filter_cons_of_neg]
    · rfl
    · intro hp
      apply h
      simpa using hp

theorem slowLines_one (data rs : String) : slowLines [LogLine.slowQuery data rs] = 1 := rfl

theorem slowLines_nilResults : slowLines [LogLine.nilResults] = 0 := rfl

theorem slowLines_hitsNil : slowLines [LogLine.hitsNil] = 0 := rfl

theorem slowLines_dsl (data rs : String) : slowLines [LogLine.dsl data rs] = 0 := rfl

/-- The scroll loop prints one slow-query line for each fetched answer that is a page
meeting the rule, and no other slow-query line. -/
theorem scrollLoop_slowLines {σ κ : Type} (E : Engine σ) (req : ScrollRequest)
    (data rs : String) (thr : Int) (callback : κ → SearchResult → Option Err → κ) :
    ∀ (fuel : Nat) (st out : ScrollRun σ κ),
      scrollLoop E req data rs thr callback fuel st = some out →
      slowLines out.client.logs + slowPages thr st.fetched
        = slowLines st.client.logs + slowPages thr out.fetched := by
  intro fuel
  induction fuel with
  | zero => intro st out h; simp [scrollLoop] at h
  | succ f ih =>
    intro st out h
    rcases hresp : E.scrollDo st.client.Client req with ⟨⟨res, err⟩, s1⟩
    by_cases he : err = some Err.EOF
    · rw [scrollLoop] at h
      simp only [hresp, he, if_true, Option.some.injEq] at h
      subst h
      simp [slowPages_append_one, he]
    · cases res with
      | none =>
        rw [scrollLoop] at h
        simp only [hresp, he, if_false, Option.some.injEq] at h
        subst h
        simp [slowPages_append_one, he, slowCondition, slowRule, slowLines_append,
          slowLines_nilResults]
      | some r =>
        cases hh : r.Hits with
        | none =>
          rw [scrollLoop] at h
          simp only [hresp, he, if_false, hh, Option.some.injEq] at h
          subst h
          cases hs : slowCondition thr (some r) <;>
            simp only [slowPages_append_one, he, ← slowCondition_eq_slowRule, slowLines_append,
              slowLines_hitsNil, slowLines_one, hs, ne_eq, not_false_eq_true, true_and,
              if_true, if_false, Bool.false_eq_true] <;> omega
        | some hits =>
          by_cases hz : hits.Hits.length = 0
          · rw [scrollLoop] at h
            simp only [hresp, he, if_false, hh, hz, if_true, Option.some.injEq] at h
            subst h
            cases hs : slowCondition thr (some r) <;>
              simp only [slowPages_append_one, he, ← slowCondition_eq_slowRule, slowLines_append,
                slowLines_one, hs, ne_eq, not_false_eq_true, true_and,
                if_true, if_false, Bool.false_eq_true] <;> omega
          · obtain ⟨c1, hstep, _, _, hl⟩ :=
              scrollLoop_step_page E req data rs thr callback f st r err hits
                (by rw [hresp]) he hh (fun e => hz (by rw [e]; rfl))
            rw [hstep] at h
            have := ih _ _ h
            simp only [slowPages_append_one, he, ne_eq, not_false_eq_true, true_and] at this
            rw [hl, slowCondition_eq_slowRule] at this
            omega

/-- The slow-query lines that `Query` adds to the log: one if the rule holds for the
returned result, none otherwise. -/
theorem Query_slowLines {σ : Type} (E : Engine σ) (c : Client σ) (indexName : String)
    (routes : List String) (query : String) (pageFrom size : Int)
    (options : List (Option QueryOption)) :
    slowLines (Query E c indexName routes query pageFrom size options).2.logs
      = slowLines c.logs +
          (if slowRule (applyOptions options).SlowQueryMillisecond
                (Query E c indexName routes query pageFrom size options).1.1 = true
            then 1 else 0) := by
  unfold Query
  dsimp only
  rw [slowCondition_eq_slowRule]
  cases slowRule (applyOptions options).SlowQueryMillisecond
      (E.search c.Client
        (Query.searchService indexName routes query pageFrom size (applyOptions options))).1.1
  · simp only [Bool.false_eq_true, if_false, Nat.add_zero]
    split
    · show slowLines (c.logs ++ _) = _
      rw [slowLines_append, slowLines_dsl]; rfl
    · rfl
  · simp only [if_true]
    split
    · show slowLines ((c.logs ++ _) ++ _) = _
      rw [slowLines_append, slowLines_append, slowLines_dsl, slowLines_one]
    · show slowLines (c.logs ++ _) = _
      rw [slowLines_append, slowLines_one]

/-- The slow-query lines that a finished `ScrollQuery` call added to the log. -/
theorem ScrollQuery_slowLines {σ κ : Type} (E : Engine σ) (c : Client σ)
    (index : List String) (typeStr query : String) (size : Int) (routes : List String)
    (callback : κ → SearchResult → Option Err → κ) (caller : κ)
    (options : List (Option QueryOption)) (fuel : Nat) (run : ScrollRun σ κ)
    (h : ScrollQuery E c index typeStr query size routes callback caller options fuel
      = some run) :
    slowLines run.client.logs
      = slowLines c.logs + slowPages (applyOptions options).SlowQueryMillisecond run.fetched := by
  unfold ScrollQuery at h
  dsimp only at h
  rw [Option.map_eq_some'] at h
  obtain ⟨out, ho, rfl⟩ := h
  have := scrollLoop_slowLines E _ _ _ _ callback fuel _ out ho
  dsimp only at this ⊢
  have h0 : slowPages (applyOptions options).SlowQueryMillisecond [] = 0 := rfl
  rw [h0, Nat.add_zero] at this
  rw [this]
  congr 1
  split
  · show slowLines (c.logs ++ _) = _
    rw [slowLines_append, slowLines_dsl]; rfl
  · rfl

theorem pageWithHits_true (r : Response) (h : pageWithHits r = true) :
    r.2 ≠ some Err.EOF ∧
      ∃ res hits, r.1 = some res ∧ res.Hits = some hits ∧ hits.Hits ≠ [] := by
  obtain ⟨res, err⟩ := r
  unfold pageWithHits at h
  simp only [Bool.and_eq_true, decide_eq_true_eq] at h
  obtain ⟨h1, h2⟩ := h
  refine ⟨h1, ?_⟩
  cases res with
  | none => simp at h2
  | some res =>
    cases hh : res.Hits with
    | none => simp [hh] at h2
    | some hits =>
      simp only [hh, decide_eq_true_eq] at h2
      exact ⟨res, hits, rfl, hh, h2⟩

/-- The loop ends at the first answer that is not a page with hits: over a script of
pages with hits followed by such an answer it comes to an end, having fetched exactly
the script and that answer. -/
theorem scrollLoop_script {σ κ : Type} (E : Engine σ) (req : ScrollRequest)
    (data rs : String) (thr : Int) (callback : κ → SearchResult → Option Err → κ)
    (last : Response) (hLast : pageWithHits last = false) :
    ∀ (script : List Response) (fuel : Nat) (st : ScrollRun σ κ),
      script.length + 1 ≤ fuel →
      fetches E req (script.length + 1) st.client.Client = script ++ [last] →
      (∀ r ∈ script, pageWithHits r = true) →
      ∃ out, scrollLoop E req data rs thr callback fuel st = some out ∧
        out.fetched = st.fetched ++ (script ++ [last]) := by
  intro script
  induction script with
  | nil =>
    intro fuel st hfuel hf _
    obtain ⟨f, rfl⟩ : ∃ f, fuel = f + 1 := ⟨fuel - 1, by simp at hfuel; omega⟩
    simp only [List.length_nil, Nat.zero_add, fetches, List.nil_append,
      List.cons.injEq, and_true] at hf
    obtain ⟨res, err⟩ := last
    have h1 : (E.scrollDo st.client.Client req).1.1 = res := by rw [hf]
    have h2 : (E.scrollDo st.client.Client req).1.2 = err := by rw [hf]
    rw [scrollLoop]
    by_cases he : err = some Err.EOF
    · simp only [h1, h2, he, if_true]
      exact ⟨_, rfl, by simp [hf, he]⟩
    · cases res with
      | none =>
        simp only [h1, h2, he, if_false]
        exact ⟨_, rfl, by simp [hf]⟩
      | some r =>
        cases hh : r.Hits with
        | none =>
          simp only [h1, h2, he, if_false, hh]
          exact ⟨_, rfl, by simp [hf]⟩
        | some hits =>
          by_cases hz : hits.Hits.length = 0
          · simp only [h1, h2, he, if_false, hh, hz, if_true]
            exact ⟨_, rfl, by simp [hf]⟩
          · exfalso
            have hne : hits.Hits ≠ [] := fun e => hz (by rw [e]; rfl)
            have : pageWithHits (some r, err) = true := by
              simp [pageWithHits, he, hh, hne]
            rw [this] at hLast
            cases hLast
  | cons p ps ih =>
    intro fuel st hfuel hf hall
    obtain ⟨f, rfl⟩ : ∃ f, fuel = f + 1 := ⟨fuel - 1, by simp at hfuel; omega⟩
    rw [List.length_cons, fetches_succ, List.cons_append, List.cons.injEq] at hf
    obtain ⟨hr, hrest⟩ := hf
    obtain ⟨hpe, res, hits, hres, hp, hh⟩ := pageWithHits_true p (hall p (List.mem_cons_self _ _))
    have hr2 : (E.scrollDo st.client.Client req).1 = (some res, p.2) := by
      rw [hr, ← hres]
    obtain ⟨c1, hstep, hC, _, _⟩ :=
      scrollLoop_step_page E req data rs thr callback f st res p.2 hits hr2 hpe hp hh
    rw [hstep]
    obtain ⟨out, ho, hfe⟩ :=
      ih f
        { client := c1
          caller := callback st.caller res p.2
          fetched := st.fetched ++ [(some res, p.2)]
          callbacks := st.callbacks ++ [(res, p.2)]
          outcome := st.outcome }
        (by simp at hfuel ⊢; omega) (by rw [hC]; exact hrest)
        (fun q hq => hall q (List.mem_cons_of_mem _ hq))
    refine ⟨out, ho, ?_⟩
    rw [hfe]
    have hpp : (some res, p.2) = p := by rw [← hres]
    simp [hpp]

theorem slowPages_eq_slowResults (threshold : Int) (script : List Response)
    (h : ∀ r ∈ script, r.2 ≠ some Err.EOF) :
    slowPages threshold script = slowResults threshold script := by
  unfold slowPages slowResults
  congr 1
  apply List.filter_congr
  intro r hr
  simp [h r hr]

theorem slowResults_one (threshold : Int) (r : Response) :
    slowResults threshold [r] = if slowRule threshold r.1 = true then 1 else 0 := by
  unfold slowResults
  cases h : slowRule threshold r.1 <;> simp [List.filter, h]

/-- C10, as stated, fails for `ScrollQuery`: over two pages with hits (5 and 7 ms) and
the empty page that ends the scroll (1 ms, together with the end-of-stream signal),
with threshold 1 all three fetched results meet the rule, but only two slow-query
lines are printed: the loop is left at the end-of-stream test, before the slow-query
check. -/
theorem ScrollQuery_last_page_not_checked :
    (ScrollQuery stubEngine (stubClient sampleScroll DefaultBulk) ["orders"] "" "match_all"
          100 [] collectIds [] [some (WithSlowQueryMillisecond 1)] 10).map
        (fun run => (run.outcome, run.fetched.length, slowResults 1 run.fetched,
          slowLines run.client.logs))
      = some (Outcome.returned, 3, 3, 2) := by
  rfl

/-- C10, amended: the slow-query line of `Query` is printed (exactly once) if and only
if a result is returned, the resolved per-call threshold is greater than zero and the
result's `TookInMillis` is at least the threshold; otherwise no such line is printed.
In particular nothing is printed for a threshold that is zero, unset or negative, and
for a threshold `t > 0` nothing is printed at `t - 1` ms while the line is printed at
`t` and at `t + 1` ms.  `ScrollQuery` applies the same rule to each fetched result
except one that arrives with the end-of-stream signal: whenever the engine answers
with the pages of `script` (each with hits) and then with an answer `last` that is
not a page with hits, `ScrollQuery` comes to an end (any fuel above `script.length`
suffices), has fetched exactly these answers, and has printed one slow-query line per
result of `script` that meets the rule, plus one for `last` if it meets the rule and
did not come with `io.EOF`. -/
theorem slow_query_logging_rule {σ κ : Type} (E : Engine σ) (c : Client σ)
    (indexName : String) (routes : List String) (query : String) (pageFrom size : Int)
    (options : List (Option QueryOption)) (index : List String) (typeStr : String)
    (callback : κ → SearchResult → Option Err → κ) (caller : κ) :
    (slowLines (Query E c indexName routes query pageFrom size options).2.logs
          = slowLines c.logs + 1 ↔
        ∃ r, (Query E c indexName routes query pageFrom size options).1.1 = some r ∧
          0 < (applyOptions options).SlowQueryMillisecond ∧
          (applyOptions options).SlowQueryMillisecond ≤ r.TookInMillis) ∧
      (slowLines (Query E c indexName routes query pageFrom size options).2.logs
          = slowLines c.logs ↔
        ¬ ∃ r, (Query E c indexName routes query pageFrom size options).1.1 = some r ∧
          0 < (applyOptions options).SlowQueryMillisecond ∧
          (applyOptions options).SlowQueryMillisecond ≤ r.TookInMillis) ∧
      ((applyOptions options).SlowQueryMillisecond ≤ 0 →
        slowLines (Query E c indexName routes query pageFrom size options).2.logs
          = slowLines c.logs) ∧
      (∀ r, (Query E c indexName routes query pageFrom size options).1.1 = some r →
        0 < (applyOptions options).SlowQueryMillisecond →
        (r.TookInMillis = (applyOptions options).SlowQueryMillisecond - 1 →
          slowLines (Query E c indexName routes query pageFrom size options).2.logs
            = slowLines c.logs) ∧
        (r.TookInMillis = (applyOptions options).SlowQueryMillisecond →
          slowLines (Query E c indexName routes query pageFrom size options).2.logs
            = slowLines c.logs + 1) ∧
        (r.TookInMillis = (applyOptions options).SlowQueryMillisecond + 1 →
          slowLines (Query E c indexName routes query pageFrom size options).2.logs
            = slowLines c.logs + 1)) ∧
      ((applyOptions []).SlowQueryMillisecond = 0 ∧
        ∀ t : Int, (applyOptions [some (WithSlowQueryMillisecond t)]).SlowQueryMillisecond = t) ∧
      (∀ (script : List Response) (last : Response) (fuel : Nat),
        script.length + 1 ≤ fuel →
        fetches E (ScrollQuery.scrollService index query size routes (applyOptions options))
            (script.length + 1) c.Client = script ++ [last] →
        (∀ r ∈ script, pageWithHits r = true) →
        pageWithHits last = false →
        ∃ run, ScrollQuery E c index typeStr query size routes callback caller options fuel
              = some run ∧
          run.fetched = script ++ [last] ∧
          slowLines run.client.logs
            = slowLines c.logs +
                slowResults (applyOptions options).SlowQueryMillisecond script +
                (if last.2 = some Err.EOF then 0
                  else slowResults (applyOptions options).SlowQueryMillisecond [last])) ∧
      (∀ (t : Int) (res : Option SearchResult),
        slowRule t res = true ↔ ∃ r, res = some r ∧ 0 < t ∧ t ≤ r.TookInMillis) := by
  have hq := Query_slowLines E c indexName routes query pageFrom size options
  have hiff := slowRule_iff (applyOptions options).SlowQueryMillisecond
    (Query E c indexName routes query pageFrom size options).1.1
  refine ⟨?_, ?_, ?_, ?_, ⟨rfl, fun _ => rfl⟩, ?_, slowRule_iff⟩
  · rw [hq, ← hiff]
    by_cases hs : slowRule (applyOptions options).SlowQueryMillisecond
        (Query E c indexName routes query pageFrom size options).1.1 = true
    · simp [hs]
    · simp [hs]
  · rw [hq, ← hiff]
    by_cases hs : slowRule (applyOptions options).SlowQueryMillisecond
        (Query E c indexName routes query pageFrom size options).1.1 = true
    · simp [hs]
    · simp [hs]
  · intro hle
    rw [hq, if_neg, Nat.add_zero]
    rw [hiff]
    rintro ⟨_, _, hpos, _⟩
    omega
  · intro r hr hpos
    refine ⟨fun ht => ?_, fun ht => ?_, fun ht => ?_⟩
    · rw [hq, if_neg, Nat.add_zero]
      rw [hiff]
      rintro ⟨r2, hr2, _, hle⟩
      rw [hr] at hr2
      cases hr2
      omega
    · rw [hq, if_pos]
      exact hiff.mpr ⟨r, hr, hpos, by omega⟩
    · rw [hq, if_pos]
      exact hiff.mpr ⟨r, hr, hpos, by omega⟩
  · intro script last fuel hfuel hf hall hlast
    obtain ⟨out, ho, hfe⟩ :=
      scrollLoop_script E
        (ScrollQuery.scrollService index query size routes (applyOptions options))
        (E.marshal (ScrollQuery.searchSource query (applyOptions options)))
        (String.intercalate "," routes) (applyOptions options).SlowQueryMillisecond callback
        last hlast script fuel
        { client :=
            if c.DebugMode ∨ c.QueryLogEnable ∨ (applyOptions options).EnableDSL then
              { c with
                  logs := c.logs ++
                    [LogLine.dsl
                      (E.marshal (ScrollQuery.searchSource query (applyOptions options)))
                      (String.intercalate "," routes)] }
            else c
          caller := caller
          fetched := []
          callbacks := []
          outcome := Outcome.returned }
        hfuel (by dsimp only; split <;> exact hf) hall
    have hrun : ScrollQuery E c index typeStr query size routes callback caller options fuel
        = some { out with
                  client :=
                    { out.client with
                        Client := E.scrollClear out.client.Client
                          (ScrollQuery.scrollService index query size routes
                            (applyOptions options))
                        calls := out.client.calls ++
                          [Call.scrollClear
                            (ScrollQuery.scrollService index query size routes
                              (applyOptions options))] } } := by
      unfold ScrollQuery
      dsimp only
      rw [ho]
      rfl
    have hsl := ScrollQuery_slowLines E c index typeStr query size routes callback caller
      options fuel _ hrun
    have hfe2 : out.fetched = script ++ [last] := by simpa using hfe
    refine ⟨_, hrun, hfe2, ?_⟩
    rw [hsl]
    show slowLines c.logs + slowPages _ out.fetched = _
    rw [hfe2]
    obtain ⟨res, err⟩ := last
    rw [slowPages_append_one,
      slowPages_eq_slowResults _ script (fun r hr => (pageWithHits_true r (hall r hr)).1),
      slowResults_one, Nat.add_assoc]
    by_cases he : err = some Err.EOF
    · simp [he]
    · simp [he]

/-- C10, amended, at concrete inputs: a 7 ms result against thresholds 7 and 8, and a
scroll over pages of 5 and 7 ms closed by an empty 1 ms page with the end-of-stream
signal, against threshold 1. -/
theorem slow_query_logging_rule_witness :
    slowLines
        (Query stubEngine (stubClient sampleSearch DefaultBulk) "orders" [] "match_all" 0 10
          [some (WithSlowQueryMillisecond 7)]).2.logs = 0 + 1 ∧
      slowLines
        (Query stubEngine (stubClient sampleSearch DefaultBulk) "orders" [] "match_all" 0 10
          [some (WithSlowQueryMillisecond 8)]).2.logs = 0 ∧
      (ScrollQuery stubEngine (stubClient sampleScroll DefaultBulk) ["orders"] "" "match_all"
          100 [] collectIds [] [some (WithSlowQueryMillisecond 1)] 10).map
        (fun run => slowLines run.client.logs) = some 2 := by
  refine ⟨(slow_query_logging_rule stubEngine (stubClient sampleSearch DefaultBulk) "orders" []
      "match_all" 0 10 [some (WithSlowQueryMillisecond 7)] ["orders"] "" collectIds []).1.mpr
      ⟨samplePage 7 ["a"], rfl, by decide, by decide⟩,
    (slow_query_logging_rule stubEngine (stubClient sampleSearch DefaultBulk) "orders" []
      "match_all" 0 10 [some (WithSlowQueryMillisecond 8)] ["orders"] "" collectIds []).2.1.mpr
      (by
        rintro ⟨r, hr, _, hle⟩
        cases hr
        exact absurd hle (by decide)), ?_⟩
  obtain ⟨run, h, _, hs⟩ :=
    (slow_query_logging_rule stubEngine (stubClient sampleScroll DefaultBulk) "orders" []
      "match_all" 0 100 [some (WithSlowQueryMillisecond 1)] ["orders"] "" collectIds
      []).2.2.2.2.2.1
      [(some (samplePage 5 ["a", "b"]), none), (some (samplePage 7 ["c"]), none)]
      (some (samplePage 1 []), some Err.EOF) 10 (by decide) (by decide) (by decide)
      (by decide)
  rw [h, Option.map_some', hs]
  rfl

/-! ## Routing of document operations -/

theorem length_pos_iff_ne_empty (s : String) : s.length > 0 ↔ s ≠ "" := by
  cases s with
  | mk data =>
    cases data with
    | nil => simp [String.length]
    | cons a l =>
      simp only [String.length, List.length_cons, gt_iff_lt, Nat.zero_lt_succ, ne_eq, true_iff]
      intro h
      have := congrArg String.data h
      simp at this

theorem routingParam_of_length (routing : String) :
    (if routing.length > 0 then some routing else none) = routingParam routing := by
  unfold routingParam
  by_cases h : routing = ""
  · subst h; rfl
  · rw [if_neg h, if_pos ((length_pos_iff_ne_empty routing).mpr h)]

theorem routingListParam_of_length (routings : List String) :
    (if routings.length > 0 then some routings else none) = routingListParam routings := by
  unfold routingListParam
  cases routings <;> simp

theorem foldl_add_requests {α : Type} (f : α → BulkableRequest) (docs : List α)
    (b : BulkRequest) :
    docs.foldl (fun bulkService d => { bulkService with requests := bulkService.requests ++ [f d] })
        b
      = { b with requests := b.requests ++ docs.map f } := by
  induction docs generalizing b with
  | nil => simp
  | cons d ds ih => rw [List.foldl_cons, ih]; simp

theorem Create_indexService_routing (indexName id routing : String) (doc : Doc) :
    (Create.indexService indexName id routing doc).routing = routingParam routing := by
  rw [← routingParam_of_length]
  simp only [Create.indexService]
  split_ifs <;> rfl

theorem Get_getService_routing (indexName id routing : String) :
    (Get.getService indexName id routing).routing = routingParam routing := by
  rw [← routingParam_of_length]
  simp only [Get.getService]
  split_ifs <;> rfl

theorem Delete_deleteService_routing (indexName id routing : String) :
    (Delete.deleteService indexName id routing).routing = routingParam routing := by
  rw [← routingParam_of_length]
  simp only [Delete.deleteService]
  split_ifs <;> rfl

theorem DeleteRefresh_deleteService_routing (indexName id routing : String) :
    (DeleteRefresh.deleteService indexName id routing).routing = routingParam routing := by
  rw [← routingParam_of_length]
  simp only [DeleteRefresh.deleteService]
  split_ifs <;> rfl

theorem DeleteWithVersion_deleteService_routing (indexName id routing : String) (version : Int) :
    (DeleteWithVersion.deleteService indexName id routing version).routing = routingParam routing := by
  rw [← routingParam_of_length]
  simp only [DeleteWithVersion.deleteService]
  split_ifs <;> rfl

theorem DeleteByQuery_deleteService_routing (indexName id routing query : String) :
    (DeleteByQuery.deleteService indexName id routing query).routing = routingParam routing := by
  rw [← routingParam_of_length]
  simp only [DeleteByQuery.deleteService]
  split_ifs <;> rfl

theorem Update_updateService_routing (indexName id routing : String) (update : UpdateMap) :
    (Update.updateService indexName id routing update).routing = routingParam routing := by
  rw [← routingParam_of_length]
  simp only [Update.updateService]
  split_ifs <;> rfl

theorem UpdateRefresh_updateService_routing (indexName id routing : String) (update : UpdateMap) :
    (UpdateRefresh.updateService indexName id routing update).routing = routingParam routing := by
  rw [← routingParam_of_length]
  simp only [UpdateRefresh.updateService]
  split_ifs <;> rfl

theorem Upsert_updateService_routing
    (indexName id routing : String) (update : UpdateMap) (doc : Doc) :
    (Upsert.updateService indexName id routing update doc).routing = routingParam routing := by
  rw [← routingParam_of_length]
  simp only [Upsert.updateService]
  split_ifs <;> rfl

theorem UpsertWithVersion_indexService_routing
    (indexName id routing : String) (doc : Doc) (version : Int) :
    (UpsertWithVersion.indexService indexName id routing doc version).routing = routingParam routing := by
  rw [← routingParam_of_length]
  simp only [UpsertWithVersion.indexService]
  split_ifs <;> rfl

theorem BulkCreate_bulkCreateRequest_routing (indexName id routing : String) (doc : Doc) :
    (BulkCreate.bulkCreateRequest indexName id routing doc).routing = routingParam routing := by
  rw [← routingParam_of_length]
  simp only [BulkCreate.bulkCreateRequest]
  split_ifs <;> rfl

theorem BulkCreateWithVersion_bulkCreateRequest_routing
    (indexName id routing : String) (version : Int) (doc : Doc) :
    (BulkCreateWithVersion.bulkCreateRequest indexName id routing version doc).routing = routingParam routing := by
  rw [← routingParam_of_length]
  simp only [BulkCreateWithVersion.bulkCreateRequest]
  split_ifs <;> rfl

theorem BulkDelete_bulkDeleteRequest_routing (indexName id routing : String) (version : Int) :
    (BulkDelete.bulkDeleteRequest indexName id routing version).routing = routingParam routing := by
  rw [← routingParam_of_length]
  simp only [BulkDelete.bulkDeleteRequest]
  split_ifs <;> rfl

theorem BulkDeleteWithVersion_bulkDeleteRequest_routing
    (indexName id routing : String) (version : Int) :
    (BulkDeleteWithVersion.bulkDeleteRequest indexName id routing version).routing = routingParam routing := by
  rw [← routingParam_of_length]
  simp only [BulkDeleteWithVersion.bulkDeleteRequest]
  split_ifs <;> rfl

theorem BulkUpdate_bulkService_routing (indexName id routing : String) (update : UpdateMap) :
    (BulkUpdate.bulkService indexName id routing update).routing = routingParam routing := by
  rw [← routingParam_of_length]
  simp only [BulkUpdate.bulkService]
  split_ifs <;> rfl

theorem BulkUpsert_bulkUpdateRequest_routing
    (indexName id routing : String) (update : UpdateMap) (doc : Doc) :
    (BulkUpsert.bulkUpdateRequest indexName id routing update doc).routing = routingParam routing := by
  rw [← routingParam_of_length]
  simp only [BulkUpsert.bulkUpdateRequest]
  split_ifs <;> rfl

theorem UpdateQuery_updateByQueryService_routing (indexName : String)
    (routings : List String) (query script : String) (scriptParams : UpdateMap) :
    (UpdateQuery.updateByQueryService indexName routings query script scriptParams).routing
      = routingListParam routings := by
  rw [← routingListParam_of_length]
  simp only [UpdateQuery.updateByQueryService]
  split_ifs <;> rfl

theorem BulkCreateDocs_bulkCreateRequest_routing (indexName : String) (doc : BulkCreateDoc) :
    (BulkCreateDocs.bulkCreateRequest indexName doc).routing = routingParam doc.Routing := by
  rw [← routingParam_of_length]
  simp only [BulkCreateDocs.bulkCreateRequest]
  split_ifs <;> rfl

theorem BulkUpdateDocs_doc_routing (update : BulkUpdateDoc) :
    (BulkUpdateDocs.doc update).routing = routingParam update.Routing := by
  rw [← routingParam_of_length]
  simp only [BulkUpdateDocs.doc]
  split_ifs <;> rfl

theorem BulkUpsertDocs_index_routing (doc : BulkUpsertDoc) :
    (BulkUpsertDocs.index doc).routing = routingParam doc.Routing := by
  rw [← routingParam_of_length]
  simp only [BulkUpsertDocs.index]
  split_ifs <;> rfl

theorem BulkCreateDocs_bulkService_requests (indexName : String) (docs : List BulkCreateDoc) :
    (BulkCreateDocs.bulkService indexName docs).requests
      = docs.map (BulkCreateDocs.bulkCreateRequest indexName) := by
  unfold BulkCreateDocs.bulkService
  rw [foldl_add_requests (BulkCreateDocs.bulkCreateRequest indexName)]
  rfl

theorem BulkUpdateDocs_bulkService_requests (index : String) (updates : List BulkUpdateDoc) :
    (BulkUpdateDocs.bulkService index updates).requests = updates.map BulkUpdateDocs.doc := by
  unfold BulkUpdateDocs.bulkService
  dsimp only
  rw [foldl_add_requests BulkUpdateDocs.doc]
  rfl

theorem BulkUpsertDocs_bulkService_requests (index : String) (docs : List BulkUpsertDoc) :
    (BulkUpsertDocs.bulkService index docs).requests = docs.map BulkUpsertDocs.index := by
  unfold BulkUpsertDocs.bulkService
  dsimp only
  rw [foldl_add_requests BulkUpsertDocs.index]
  rfl

/-- C11: routing omission.  For every document operation of the package (`Create`,
`Get`, `Delete`, `DeleteRefresh`, `DeleteWithVersion`, `DeleteByQuery`, `Update`,
`UpdateRefresh`, `Upsert`, `UpsertWithVersion`, `UpdateQuery`, the items handed to the
bulk pipeline by `BulkCreate`, `BulkCreateWithVersion`, `BulkDelete`,
`BulkDeleteWithVersion`, `BulkUpdate`, `BulkUpsert`, and every item of the
multi-operation requests of `BulkCreateDocs`, `BulkUpdateDocs`, `BulkUpsertDocs`) the
one request the operation sends carries the routing parameter `routingParam` of the
supplied key (`routingListParam` of the supplied list for `UpdateQuery`): a parameter
is set if and only if the key or list is non-empty, when set it equals the supplied
value, and the empty key gives a request with no routing parameter. -/
theorem routing_set_iff_supplied {σ : Type} (E : Engine σ) (c : Client σ)
    (indexName id routing : String) (doc : Doc) (update : UpdateMap) (version : Int)
    (query script : String) (scriptParams : UpdateMap) (routings : List String)
    (createDocs : List BulkCreateDoc) (updateDocs : List BulkUpdateDoc)
    (upsertDocs : List BulkUpsertDoc) :
    (((routingParam routing).isSome ↔ routing ≠ "") ∧
        (∀ r, routingParam routing = some r → r = routing) ∧
        routingParam "" = none ∧
        ((routingListParam routings).isSome ↔ routings ≠ []) ∧
        (∀ r, routingListParam routings = some r → r = routings)) ∧
      (∃ req, (Create E c indexName id routing doc).2.calls = c.calls ++ [Call.index req] ∧
          req.routing = routingParam routing) ∧
      (∃ req, (Get E c indexName id routing).2.calls = c.calls ++ [Call.get req] ∧
          req.routing = routingParam routing) ∧
      (∃ req, (Delete E c indexName id routing).2.calls = c.calls ++ [Call.delete req] ∧
          req.routing = routingParam routing) ∧
      (∃ req, (DeleteRefresh E c indexName id routing).2.calls = c.calls ++ [Call.delete req] ∧
          req.routing = routingParam routing) ∧
      (∃ req, (DeleteWithVersion E c indexName id routing version).2.calls = c.calls ++ [Call.delete req] ∧
          req.routing = routingParam routing) ∧
      (∃ req, (DeleteByQuery E c indexName id routing query).2.calls = c.calls ++ [Call.deleteByQuery req] ∧
          req.routing = routingParam routing) ∧
      (∃ req, (Update E c indexName id routing update).2.calls = c.calls ++ [Call.update req] ∧
          req.routing = routingParam routing) ∧
      (∃ req, (UpdateRefresh E c indexName id routing update).2.calls = c.calls ++ [Call.update req] ∧
          req.routing = routingParam routing) ∧
      (∃ req, (Upsert E c indexName id routing update doc).2.calls = c.calls ++ [Call.update req] ∧
          req.routing = routingParam routing) ∧
      (∃ req, (UpsertWithVersion E c indexName id routing doc version).2.calls = c.calls ++ [Call.index req] ∧
          req.routing = routingParam routing) ∧
      (∃ req, (BulkCreate E c indexName id routing doc).calls = c.calls ++ [Call.bulkProcessorAdd req] ∧
          req.routing = routingParam routing) ∧
      (∃ req, (BulkCreateWithVersion E c indexName id routing version doc).calls = c.calls ++ [Call.bulkProcessorAdd req] ∧
          req.routing = routingParam routing) ∧
      (∃ req, (BulkDelete E c indexName id routing version).calls = c.calls ++ [Call.bulkProcessorAdd req] ∧
          req.routing = routingParam routing) ∧
      (∃ req, (BulkDeleteWithVersion E c indexName id routing version).calls = c.calls ++ [Call.bulkProcessorAdd req] ∧
          req.routing = routingParam routing) ∧
      (∃ req, (BulkUpdate E c indexName id routing update).calls = c.calls ++ [Call.bulkProcessorAdd req] ∧
          req.routing = routingParam routing) ∧
      (∃ req, (BulkUpsert E c indexName id routing update doc).calls = c.calls ++ [Call.bulkProcessorAdd req] ∧
          req.routing = routingParam routing) ∧
      (∃ req, (UpdateQuery E c indexName routings query script scriptParams).2.calls
            = c.calls ++ [Call.updateByQuery req] ∧
          req.routing = routingListParam routings) ∧
      (∃ req, (BulkCreateDocs E c indexName createDocs).2.calls = c.calls ++ [Call.bulk req] ∧
          req.requests.map (fun r => r.routing)
            = createDocs.map (fun d => routingParam d.Routing)) ∧
      (∃ req, (BulkUpdateDocs E c indexName updateDocs).2.calls = c.calls ++ [Call.bulk req] ∧
          req.requests.map (fun r => r.routing)
            = updateDocs.map (fun d => routingParam d.Routing)) ∧
      (∃ req, (BulkUpsertDocs E c indexName upsertDocs).2.calls = c.calls ++ [Call.bulk req] ∧
          req.requests.map (fun r => r.routing)
            = upsertDocs.map (fun d => routingParam d.Routing)) := by
  refine ⟨⟨?_, ?_, rfl, ?_, ?_⟩,
    ⟨_, rfl, Create_indexService_routing indexName id routing doc⟩,
    ⟨_, rfl, Get_getService_routing indexName id routing⟩,
    ⟨_, rfl, Delete_deleteService_routing indexName id routing⟩,
    ⟨_, rfl, DeleteRefresh_deleteService_routing indexName id routing⟩,
    ⟨_, rfl, DeleteWithVersion_deleteService_routing indexName id routing version⟩,
    ⟨_, rfl, DeleteByQuery_deleteService_routing indexName id routing query⟩,
    ⟨_, rfl, Update_updateService_routing indexName id routing update⟩,
    ⟨_, rfl, UpdateRefresh_updateService_routing indexName id routing update⟩,
    ⟨_, rfl, Upsert_updateService_routing indexName id routing update doc⟩,
    ⟨_, rfl, UpsertWithVersion_indexService_routing indexName id routing doc version⟩,
    ⟨_, rfl, BulkCreate_bulkCreateRequest_routing indexName id routing doc⟩,
    ⟨_, rfl, BulkCreateWithVersion_bulkCreateRequest_routing indexName id routing version doc⟩,
    ⟨_, rfl, BulkDelete_bulkDeleteRequest_routing indexName id routing version⟩,
    ⟨_, rfl, BulkDeleteWithVersion_bulkDeleteRequest_routing indexName id routing version⟩,
    ⟨_, rfl, BulkUpdate_bulkService_routing indexName id routing update⟩,
    ⟨_, rfl, BulkUpsert_bulkUpdateRequest_routing indexName id routing update doc⟩,
    ⟨_, rfl, UpdateQuery_updateByQueryService_routing indexName routings query script scriptParams⟩,
    ⟨_, rfl, ?_⟩, ⟨_, rfl, ?_⟩, ⟨_, rfl, ?_⟩⟩
  · unfold routingParam
    by_cases h : routing = "" <;> simp [h]
  · intro r hr
    unfold routingParam at hr
    by_cases h : routing = ""
    · simp [h] at hr
    · simpa [h] using hr.symm
  · unfold routingListParam
    by_cases h : routings = [] <;> simp [h]
  · intro r hr
    unfold routingListParam at hr
    by_cases h : routings = []
    · simp [h] at hr
    · simpa [h] using hr.symm
  · rw [BulkCreateDocs_bulkService_requests, List.map_map]
    exact List.map_congr_left (fun d _ => BulkCreateDocs_bulkCreateRequest_routing indexName d)
  · rw [BulkUpdateDocs_bulkService_requests, List.map_map]
    exact List.map_congr_left (fun d _ => BulkUpdateDocs_doc_routing d)
  · rw [BulkUpsertDocs_bulkService_requests, List.map_map]
    exact List.map_congr_left (fun d _ => BulkUpsertDocs_index_routing d)

/-! ## `BulkCreateDocs` -/

/-- C12, what the code does: `BulkCreateDocs` sends one multi-operation request with
exactly one create item per descriptor, in input order, each targeting the given index
and carrying the descriptor's id and routing key when non-empty; but no item carries a
document body, for any input: `Doc` of the descriptor is never read.  At the failing
input `sampleCreateDocs` the two bodies are dropped, while `BulkCreate` given the same
index, id, routing key and body does put the body on its item. -/
theorem BulkCreateDocs_items_without_body {σ : Type} (E : Engine σ) (c : Client σ)
    (indexName : String) (docs : List BulkCreateDoc) :
    ((BulkCreateDocs E c indexName docs).2.calls
          = c.calls ++ [Call.bulk (BulkCreateDocs.bulkService indexName docs)] ∧
        (BulkCreateDocs.bulkService indexName docs).requests
          = docs.map (fun d =>
              { op := BulkOp.create
                index := some indexName
                id := if d.ID = "" then none else some d.ID
                routing := if d.Routing = "" then none else some d.Routing
                doc := none
                updateDoc := none
                upsert := none
                docAsUpsert := none
                version := none
                versionType := none })) ∧
      ((BulkCreateDocs stubEngine (stubClient Stub.empty DefaultBulk) "orders"
            sampleCreateDocs).2.calls
          = [Call.bulk
              { errorTrace := true
                refresh := none
                requests :=
                  [{ op := BulkOp.create, index := some "orders", id := some "1",
                     routing := some "eu", doc := none, updateDoc := none, upsert := none,
                     docAsUpsert := none, version := none, versionType := none },
                   { op := BulkOp.create, index := some "orders", id := none,
                     routing := none, doc := none, updateDoc := none, upsert := none,
                     docAsUpsert := none, version := none, versionType := none }] }] ∧
        (sampleCreateDocs.map (fun d => d.Doc)) = ["first body", "second body"] ∧
        (BulkCreate.bulkCreateRequest "orders" "1" "eu" "first body").doc
          = some "first body") := by
  refine ⟨⟨rfl, ?_⟩, by decide⟩
  rw [BulkCreateDocs_bulkService_requests]
  apply List.map_congr_left
  intro d _
  have hid : (if d.ID.length > 0 then some d.ID else none)
      = (if d.ID = "" then none else some d.ID) := routingParam_of_length d.ID
  have hr : (if d.Routing.length > 0 then some d.Routing else none)
      = (if d.Routing = "" then none else some d.Routing) := routingParam_of_length d.Routing
  rw [← hid, ← hr]
  simp only [BulkCreateDocs.bulkCreateRequest]
  split_ifs <;> rfl

/-! ## Transport errors in the scroll loop -/

/-- The loop over a script of pages with hits closed by a fetch that returns no result
and an error other than end of stream: every page of the script reaches the callback,
the failed fetch does not, and the loop ends there. -/
theorem scrollLoop_pages_then_error {σ κ : Type} (E : Engine σ) (req : ScrollRequest)
    (data rs : String) (thr : Int) (callback : κ → SearchResult → Option Err → κ)
    (e : Err) (he : e ≠ Err.EOF) :
    ∀ (pages : List (SearchResult × Option Err)) (fuel : Nat) (st : ScrollRun σ κ),
      pages.length + 1 ≤ fuel →
      fetches E req (pages.length + 1) st.client.Client
        = pages.map (fun p => (some p.1, p.2)) ++ [(none, some e)] →
      (∀ p ∈ pages, p.2 ≠ some Err.EOF ∧ ∃ hits, p.1.Hits = some hits ∧ hits.Hits ≠ []) →
      ∃ out, scrollLoop E req data rs thr callback fuel st = some out ∧
        out.callbacks = st.callbacks ++ pages ∧
        out.caller = pages.foldl (fun k p => callback k p.1 p.2) st.caller ∧
        out.fetched = st.fetched ++ (pages.map (fun p => (some p.1, p.2)) ++ [(none, some e)]) ∧
        out.client.calls
          = st.client.calls ++ List.replicate (pages.length + 1) (Call.scrollDo req) ∧
        out.outcome = st.outcome ∧
        LogLine.nilResults ∈ out.client.logs := by
  intro pages
  induction pages with
  | nil =>
    intro fuel st hfuel hf _
    obtain ⟨f, rfl⟩ : ∃ f, fuel = f + 1 := ⟨fuel - 1, by simp at hfuel; omega⟩
    simp only [List.length_nil, Nat.zero_add, fetches, List.map_nil, List.nil_append,
      List.cons.injEq, and_true] at hf
    have h1 : (E.scrollDo st.client.Client req).1.1 = none := by rw [hf]
    have h2 : (E.scrollDo st.client.Client req).1.2 = some e := by rw [hf]
    have hne : ¬ some e = some Err.EOF := fun h => he (Option.some.inj h)
    rw [scrollLoop]
    simp only [h1, h2, hne, if_false]
    simp [slowCondition, hf]
  | cons p ps ih =>
    intro fuel st hfuel hf hne
    obtain ⟨f, rfl⟩ : ∃ f, fuel = f + 1 := ⟨fuel - 1, by simp at hfuel; omega⟩
    rw [List.length_cons, fetches_succ, List.map_cons, List.cons_append,
      List.cons.injEq] at hf
    obtain ⟨hr, hrest⟩ := hf
    obtain ⟨hpe, hits, hp, hh⟩ := hne p (List.mem_cons_self _ _)
    obtain ⟨c1, hstep, hC, hcalls, _⟩ :=
      scrollLoop_step_page E req data rs thr callback f st p.1 p.2 hits hr hpe hp hh
    rw [hstep]
    obtain ⟨out, ho, hc, hk, hfe, hcl, hout, hlog⟩ :=
      ih f
        { client := c1
          caller := callback st.caller p.1 p.2
          fetched := st.fetched ++ [(some p.1, p.2)]
          callbacks := st.callbacks ++ [(p.1, p.2)]
          outcome := st.outcome }
        (by simp at hfuel ⊢; omega) (by rw [hC]; exact hrest)
        (fun q hq => hne q (List.mem_cons_of_mem _ hq))
    refine ⟨out, ho, ?_, ?_, ?_, ?_, ?_, hlog⟩
    · simpa using hc
    · simpa using hk
    · simpa using hfe
    · rw [hcl, hcalls]
      simp [List.replicate_succ]
    · simpa using hout

/-- C13: a transport error that comes without a page is dropped.  Let the first
`pages.length` fetches return pages with hits (each with any error other than end of
stream, or none) and let the next fetch return a nil result together with an error `e`
other than end of stream.  Then `ScrollQuery` returns (any fuel above `pages.length`
suffices); the loop ended at that fetch: the callback was invoked for the earlier
pages only and not for the failed fetch, so `e` reaches nobody; no further fetch was
sent; "nil results" was printed; and the cursor was cleared exactly once, as the last
request. -/
theorem ScrollQuery_drops_error_without_page {σ κ : Type} (E : Engine σ) (c : Client σ)
    (index : List String) (typeStr query : String) (size : Int) (routes : List String)
    (callback : κ → SearchResult → Option Err → κ) (caller : κ)
    (options : List (Option QueryOption)) (pages : List (SearchResult × Option Err))
    (e : Err) (fuel : Nat) (hFuel : pages.length + 1 ≤ fuel)
    (hFetch :
      fetches E (ScrollQuery.scrollService index query size routes (applyOptions options))
          (pages.length + 1) c.Client
        = pages.map (fun p => (some p.1, p.2)) ++ [(none, some e)])
    (hPages :
      ∀ p ∈ pages, p.2 ≠ some Err.EOF ∧ ∃ hits, p.1.Hits = some hits ∧ hits.Hits ≠ [])
    (hErr : e ≠ Err.EOF) :
    ∃ run, ScrollQuery E c index typeStr query size routes callback caller options fuel
          = some run ∧
      run.outcome = Outcome.returned ∧
      run.callbacks = pages ∧
      run.caller = pages.foldl (fun k p => callback k p.1 p.2) caller ∧
      run.fetched = pages.map (fun p => (some p.1, p.2)) ++ [(none, some e)] ∧
      run.client.calls
        = c.calls ++
            List.replicate (pages.length + 1)
              (Call.scrollDo
                (ScrollQuery.scrollService index query size routes (applyOptions options))) ++
            [Call.scrollClear
              (ScrollQuery.scrollService index query size routes (applyOptions options))] ∧
      scrollDoCalls run.client.calls = scrollDoCalls c.calls + (pages.length + 1) ∧
      scrollClearCalls run.client.calls = scrollClearCalls c.calls + 1 ∧
      LogLine.nilResults ∈ run.client.logs := by
  obtain ⟨out, ho, hc, hk, hfe, hcalls, hout, hlog⟩ :=
    scrollLoop_pages_then_error E
      (ScrollQuery.scrollService index query size routes (applyOptions options))
      (E.marshal (ScrollQuery.searchSource query (applyOptions options)))
      (String.intercalate "," routes) (applyOptions options).SlowQueryMillisecond callback
      e hErr pages fuel
      { client :=
          if c.DebugMode ∨ c.QueryLogEnable ∨ (applyOptions options).EnableDSL then
            { c with
                logs := c.logs ++
                  [LogLine.dsl (E.marshal (ScrollQuery.searchSource query (applyOptions options)))
                    (String.intercalate "," routes)] }
          else c
        caller := caller
        fetched := []
        callbacks := []
        outcome := Outcome.returned }
      hFuel (by dsimp only; split <;> exact hFetch) hPages
  have hcalls2 : out.client.calls
      = c.calls ++ List.replicate (pages.length + 1)
          (Call.scrollDo
            (ScrollQuery.scrollService index query size routes (applyOptions options))) := by
    rw [hcalls]
    dsimp only
    split <;> rfl
  refine ⟨{ out with
              client :=
                { out.client with
                    Client := E.scrollClear out.client.Client
                      (ScrollQuery.scrollService index query size routes (applyOptions options))
                    calls := out.client.calls ++
                      [Call.scrollClear
                        (ScrollQuery.scrollService index query size routes
                          (applyOptions options))] } }, ?_, ?_, ?_, ?_, ?_, ?_, ?_, ?_, ?_⟩
  · unfold ScrollQuery
    dsimp only
    rw [ho]
    rfl
  · exact hout
  · simpa using hc
  · exact hk
  · simpa using hfe
  · show out.client.calls ++ _ = _
    rw [hcalls2]
  · show scrollDoCalls (out.client.calls ++ _) = _
    rw [hcalls2, scrollDoCalls_append, scrollDoCalls_append, scrollDoCalls_replicate]
    rfl
  · show scrollClearCalls (out.client.calls ++ _) = _
    rw [hcalls2, scrollClearCalls_append, scrollClearCalls_append, scrollClearCalls_replicate]
    rfl
  · exact hlog

/-- C13 at a concrete input: one page with hits, then a nil result with a timeout. -/
theorem ScrollQuery_drops_error_without_page_witness :
    (ScrollQuery stubEngine (stubClient sampleTransportError DefaultBulk) ["orders"] ""
          "match_all" 100 [] collectIds [] [] 10).map
        (fun run => (run.outcome, run.caller, run.callbacks,
          scrollDoCalls run.client.calls, scrollClearCalls run.client.calls))
      = some (Outcome.returned, ["a", "b"], [(samplePage 5 ["a", "b"], none)], 2, 1) := by
  obtain ⟨run, h, ho, hcb, hk, _, _, hd, hc, _⟩ :=
    ScrollQuery_drops_error_without_page stubEngine
      (stubClient sampleTransportError DefaultBulk) ["orders"] "" "match_all" 100 []
      collectIds [] [] [(samplePage 5 ["a", "b"], none)] (Err.other "timeout") 10
      (by decide) (by decide)
      (by
        intro p hp
        simp only [List.mem_singleton] at hp
        subst hp
        exact ⟨by simp, _, rfl, by simp⟩)
      (by simp)
  rw [h, Option.map_some', ho, hk, hcb, hd, hc]
  rfl

end Es
